import Mathlib

/-!
Verification of the WebCrawl scrape/crawl core against its natural-language
specification.  The TypeScript source under
`apps/WebCrawl/src/scraper/scrapeURL/index.ts`, the gatekeeper module, the
fetch engine, the crawl driver and the blocklist module are shallowly
embedded below.  External collaborators (cheerio HTML text extraction, the
markdown converter, the `ipaddr.js` library, URL parsing) are passed in as
explicit oracle functions, so every repository-side computation stays
executable and faithful to the source.
-/

namespace WebCrawl

/-- JavaScript `String.prototype.includes`: substring containment on the
underlying character list (empty pattern always matches). -/
def charsHas (pat : List Char) : List Char → Bool
  | [] => pat.isEmpty
  | c :: t => pat.isPrefixOf (c :: t) || charsHas pat t

/-- `strHas s pat` models the JS expression `s.includes(pat)`. -/
def strHas (s pat : String) : Bool :=
  charsHas pat.toList s.toList

/-- Drops leading whitespace characters from a character list. -/
def dropWs : List Char → List Char
  | [] => []
  | c :: t => if c.isWhitespace then dropWs t else c :: t

/-- JavaScript `String.prototype.trim`: leading and trailing whitespace
removed. -/
def jsTrim (s : String) : String :=
  ⟨(dropWs (dropWs s.data).reverse).reverse⟩

theorem allWs_dropWs (l : List Char) :
    (dropWs l).all Char.isWhitespace = l.all Char.isWhitespace := by
  induction l with
  | nil => rfl
  | cons c t ih =>
    by_cases hc : c.isWhitespace <;> simp [dropWs, hc, ih]

theorem dropWs_eq_nil_iff (l : List Char) :
    dropWs l = [] ↔ l.all Char.isWhitespace = true := by
  induction l with
  | nil => simp [dropWs]
  | cons c t ih =>
    by_cases hc : c.isWhitespace <;> simp [dropWs, hc, ih]

theorem jsTrim_eq_empty_iff (s : String) :
    jsTrim s = "" ↔ s.data.all Char.isWhitespace = true := by
  have hdata : ("" : String).data = [] := rfl
  rw [jsTrim, String.ext_iff, hdata, List.reverse_eq_nil_iff,
    dropWs_eq_nil_iff, List.all_reverse, allWs_dropWs]

theorem allWs_jsTrim (s : String) :
    (jsTrim s).data.all Char.isWhitespace = s.data.all Char.isWhitespace := by
  show (dropWs (dropWs s.data).reverse).reverse.all _ = _
  rw [List.all_reverse, allWs_dropWs, List.all_reverse, allWs_dropWs]

theorem jsTrim_jsTrim_eq_empty_iff (s : String) :
    jsTrim (jsTrim s) = "" ↔ jsTrim s = "" := by
  rw [jsTrim_eq_empty_iff, allWs_jsTrim, ← jsTrim_eq_empty_iff]

theorem jsTrim_length_eq_zero_iff (s : String) :
    (jsTrim s).length = 0 ↔ jsTrim s = "" := by
  rw [String.length, List.length_eq_zero, String.ext_iff]

/-- JS truthiness of an optional string value (`undefined` and `""` are
falsy, every other string is truthy). -/
def jsTruthy : Option String → Bool
  | none => false
  | some s => s ≠ ""

/-- Record update for a JS `Map`/object keyed by strings: `m.set(k, v)`
replaces the value at `k` if present, otherwise appends the binding. -/
def recordSet {β : Type} (m : List (String × β)) (k : String) (v : β) :
    List (String × β) :=
  if m.any (fun p => p.1 == k) then
    m.map (fun p => if p.1 == k then (k, v) else p)
  else m ++ [(k, v)]

theorem lookup_mapset {β : Type} (k : String) (v : β) :
    ∀ m : List (String × β), m.any (fun p => p.1 == k) = true →
      (m.map (fun p => if p.1 == k then (k, v) else p)).lookup k = some v := by
  intro m
  induction m with
  | nil => intro h; simp at h
  | cons a t ih =>
    rcases a with ⟨ak, av⟩
    intro h
    by_cases ha : ak = k
    · subst ha
      rw [List.map_cons]
      have hhead : (if ((ak, av).1 == ak) then (ak, v) else (ak, av)) = (ak, v) := by
        simp
      rw [hhead, List.lookup_cons]
      simp
    · have hb : (ak == k) = false := beq_eq_false_iff_ne.mpr ha
      have hb' : (k == ak) = false :=
        beq_eq_false_iff_ne.mpr (fun hk => ha hk.symm)
      have ht : t.any (fun p => p.1 == k) = true := by
        simpa [List.any_cons, hb] using h
      rw [List.map_cons]
      have hhead : (if ((ak, av).1 == k) then (k, v) else (ak, av)) = (ak, av) := by
        simp [hb]
      rw [hhead, List.lookup_cons, hb']
      simpa using ih ht

theorem lookup_append_single {β : Type} (k : String) (v : β) :
    ∀ m : List (String × β), m.any (fun p => p.1 == k) = false →
      (m ++ [(k, v)]).lookup k = some v := by
  intro m
  induction m with
  | nil =>
    intro _
    rw [List.nil_append, List.lookup_cons]
    simp
  | cons a t ih =>
    rcases a with ⟨ak, av⟩
    intro h
    have ha : (ak == k) = false := by
      simp only [List.any_cons, Bool.or_eq_false_iff] at h
      exact h.1
    have ht : t.any (fun p => p.1 == k) = false := by
      simp only [List.any_cons, Bool.or_eq_false_iff] at h
      exact h.2
    have hb' : (k == ak) = false :=
      beq_eq_false_iff_ne.mpr (fun hk => (beq_eq_false_iff_ne.mp ha) hk.symm)
    rw [List.cons_append, List.lookup_cons, hb']
    simpa using ih ht

theorem lookup_recordSet {β : Type} (m : List (String × β)) (k : String) (v : β) :
    (recordSet m k v).lookup k = some v := by
  rw [recordSet]
  by_cases h : m.any (fun p => p.1 == k) = true
  · rw [if_pos h]
    exact lookup_mapset k v m h
  · rw [if_neg h]
    exact lookup_append_single k v m (Bool.eq_false_iff.mpr h)

/-- JS object spread `{...a, ...b}` over string-keyed records: bindings of
`b` override bindings of `a` with the same key. -/
def jsMerge (a b : List (String × String)) : List (String × String) :=
  b.foldl (fun m kv => recordSet m kv.1 kv.2) a

/-- JS `String.prototype.toLowerCase` (ASCII letters). -/
def lowerAscii (s : String) : String :=
  ⟨s.data.map Char.toLower⟩

/-- Case-insensitive header lookup, modelling `Headers.get(name)` of the
fetch API (`name` is supplied in lower case). -/
def headersGet (hs : List (String × String)) (name : String) : Option String :=
  (hs.find? (fun p => lowerAscii p.1 == name)).map (·.2)

/-! ### Scrape options (`apps/WebCrawl/src/types`, `buildMetaObject`) -/

/-- The format tags of `FormatObject` in `types.ts` (each format object is
`{ type: ... }`, so the tag determines the object). -/
inductive FormatType
  | markdown
  | html
  | rawHtml
  | links
  | images
deriving DecidableEq, Repr

/-- Modelled from the spec: `hasFormatOfType` (the `lib/format-utils`
module is not part of the provided sources).  The spec describes `formats`
as "the set of desired outputs"; `hasFormatOfType(formats, t)` reports
whether a format of type `t` was requested. -/
def hasFormatOfType (formats : List FormatType) (t : FormatType) : Bool :=
  formats.contains t

/-- The caller-supplied fields of the scrape options that decide the
`skipTlsVerification` merge in `buildMetaObject`. -/
structure ScrapeOptionsIn where
  headers : Option (List (String × String))
  skipTlsVerification : Option Bool
deriving Repr

/-- The merged `skipTlsVerification` computed by `buildMetaObject`
(`index.ts` lines 127-134):
`options.skipTlsVerification ?? (options.headers && Object.keys(options.headers).length > 0 ? false : true)`. -/
def mergedSkipTlsVerification (o : ScrapeOptionsIn) : Bool :=
  o.skipTlsVerification.getD
    (match o.headers with
      | some hs => if hs.length > 0 then false else true
      | none => true)

/-- C5: for every scrape request, when the caller leaves
`skipTlsVerification` unset the merged options record `true` unless the
caller supplied at least one custom header (in which case `false`); a
caller-supplied value is always preserved unchanged. -/
theorem buildMetaObject_skipTlsVerification_default (o : ScrapeOptionsIn) :
    mergedSkipTlsVerification o =
      match o.skipTlsVerification with
      | some v => v
      | none => decide ((o.headers.getD []).length = 0) := by
  rcases o with ⟨headers, skipTls⟩
  cases skipTls with
  | some v => rfl
  | none =>
    cases headers with
    | none => rfl
    | some hs =>
      simp only [mergedSkipTlsVerification, Option.getD]
      rcases hs with _ | ⟨h, t⟩ <;> simp

/-! ### Secure dispatcher guard (`engines/utils/safeFetch.ts`) -/

/-- The interface of the external `ipaddr.js` library as used by
`safeFetch.ts`: validity of an address string and the name of its range
classification (`'unicast'`, `'loopback'`, `'private'`, ...). -/
structure IPAddrLib where
  isValid : String → Bool
  rangeOf : String → String

/-- `isIPPrivate` (`safeFetch.ts` lines 14-19): `false` for strings that
are not valid IP addresses, otherwise `true` exactly when the parsed
address's range is not `'unicast'`. -/
def isIPPrivate (lib : IPAddrLib) (address : String) : Bool :=
  if !(lib.isValid address) then false
  else lib.rangeOf address != "unicast"

/-- The destroy decision of `attachSecurityCheck` (`safeFetch.ts` lines
55-68): the socket is destroyed with `InsecureConnectionError` exactly when
`socket.remoteAddress && isIPPrivate(socket.remoteAddress) &&
config.ALLOW_LOCAL_WEBHOOKS !== true`. -/
def securityCheckDestroys (lib : IPAddrLib) (allowLocalWebhooks : Bool)
    (remoteAddress : Option String) : Bool :=
  jsTruthy remoteAddress && isIPPrivate lib (remoteAddress.getD "")
    && !allowLocalWebhooks

/-- C9: the socket is destroyed (with `InsecureConnectionError`) exactly
when the remote address is a valid IP in a non-unicast range and the
allow-local-webhooks policy is disabled; `isIPPrivate` returns `true`
exactly for valid IPs whose range classification is not `'unicast'` and
`false` for every invalid address string. -/
theorem attachSecurityCheck_blocks_private (lib : IPAddrLib)
    (allowLocalWebhooks : Bool) (addr : String) :
    (securityCheckDestroys lib allowLocalWebhooks (some addr) = true ↔
      (addr ≠ "" ∧ lib.isValid addr = true ∧ lib.rangeOf addr ≠ "unicast" ∧
        allowLocalWebhooks = false))
    ∧ (isIPPrivate lib addr = true ↔
        (lib.isValid addr = true ∧ lib.rangeOf addr ≠ "unicast"))
    ∧ (lib.isValid addr = false → isIPPrivate lib addr = false) := by
  refine ⟨?_, ?_, ?_⟩
  · by_cases hv : lib.isValid addr = true <;>
      by_cases hr : lib.rangeOf addr = "unicast" <;>
        cases allowLocalWebhooks <;>
          simp [securityCheckDestroys, isIPPrivate, jsTruthy, hv, hr,
            Option.getD]
  · by_cases hv : lib.isValid addr = true <;>
      by_cases hr : lib.rangeOf addr = "unicast" <;>
        simp [isIPPrivate, hv, hr]
  · intro hv
    simp [isIPPrivate, hv]

/-- C9 witness: a concrete library classifying `10.0.0.1` as `private`
and rejecting `not-an-ip`; the guard destroys the connection to
`10.0.0.1` when local webhooks are disallowed, and `isIPPrivate` is
`false` on the invalid string. -/
theorem attachSecurityCheck_blocks_private_witness :
    securityCheckDestroys
        ⟨fun s => s == "10.0.0.1", fun _ => "private"⟩ false
        (some "10.0.0.1") = true
    ∧ isIPPrivate ⟨fun s => s == "10.0.0.1", fun _ => "private"⟩
        "not-an-ip" = false := by
  constructor
  · exact (attachSecurityCheck_blocks_private
      ⟨fun s => s == "10.0.0.1", fun _ => "private"⟩ false "10.0.0.1").1.mpr
      ⟨by decide, by decide, by decide, rfl⟩
  · exact (attachSecurityCheck_blocks_private
      ⟨fun s => s == "10.0.0.1", fun _ => "private"⟩ false "not-an-ip").2.2
      (by decide)

/-! ### Blocklist (`initializeBlocklist` / `isUrlBlocked`) -/

/-- The process-wide blocklist blob. -/
structure BlocklistBlob where
  blocklist : List String
  allowedKeywords : List String
deriving Repr, DecidableEq

/-- The team-flags record (`TeamFlags` in `types.ts`; the whole record is
nullable, which is modelled by wrapping in `Option` at use sites). -/
structure TeamFlagsRec where
  checkRobotsOnScrape : Option Bool
  unblockedDomains : Option (List String)
deriving Repr

/-- The blob installed by `initializeBlocklist`: empty blocklist and empty
allowed-keywords. -/
def initialBlocklistBlob : BlocklistBlob :=
  { blocklist := [], allowedKeywords := [] }

/-- JS `hostname.replace(/^www\./, "")`. -/
def stripWwwDot (hostname : String) : String :=
  if hostname.startsWith "www." then hostname.drop 4 else hostname

/-- `isUrlBlocked` from the blocklist module.  `blob` is the module-level
state (`none` before `initializeBlocklist` ran); `parseHostname` is the
oracle for `new URL(...).hostname` (`none` models a thrown parse error,
which the source catches and turns into `false`).  The `Except` result
models the `throw new Error("Blocklist not initialized")` path. -/
def isUrlBlocked (blob : Option BlocklistBlob) (parseHostname : String → Option String)
    (flags : Option TeamFlagsRec) (url : String) : Except String Bool :=
  match blob with
  | none => .error "Blocklist not initialized"
  | some blob =>
    let lowerCaseUrl := lowerAscii (jsTrim url)
    let blockedlist :=
      match flags.bind (·.unblockedDomains) with
      | some unblocked => blob.blocklist.filter (fun b => !unblocked.contains b)
      | none => blob.blocklist
    let decryptedUrl := ((blockedlist.find? (fun d => lowerCaseUrl == d)).getD lowerCaseUrl)
    match parseHostname decryptedUrl with
    | none => .ok false
    | some rawHostname =>
      let hostname := stripWwwDot rawHostname
      let parts := hostname.splitOn "."
      let publicSuffix : Option String :=
        if parts.length ≥ 2 then parts.getLast? else none
      let domain := hostname
      if domain = "" then .ok false
      else if blob.allowedKeywords.any (fun k => strHas lowerCaseUrl (lowerAscii k)) then .ok false
      else if blockedlist.contains domain then .ok true
      else if blockedlist.any (fun b => domain.endsWith ("." ++ b)) then .ok true
      else
        let baseDomain := (domain.splitOn ".").headD ""
        if jsTruthy publicSuffix &&
            blockedlist.any (fun b => b.startsWith (baseDomain ++ ".") && b != domain) then
          .ok true
        else .ok false

/-- C10: before the blocklist is installed `isUrlBlocked` throws for every
input; after `initializeBlocklist` ran (installing the empty default blob)
it never throws and returns `false` for every URL, every team-flags value
and every behaviour of URL parsing. -/
theorem isUrlBlocked_uninitialized_and_default
    (parseHostname : String → Option String) (flags : Option TeamFlagsRec)
    (url : String) :
    isUrlBlocked none parseHostname flags url = .error "Blocklist not initialized"
    ∧ isUrlBlocked (some initialBlocklistBlob) parseHostname flags url = .ok false := by
  refine ⟨rfl, ?_⟩
  simp only [isUrlBlocked, initialBlocklistBlob]
  cases hub : flags.bind (·.unblockedDomains) with
  | none =>
    simp only [hub, List.find?_nil, Option.getD_none]
    cases parseHostname (lowerAscii (jsTrim url)) with
    | none => rfl
    | some rawHostname =>
      by_cases hdom : stripWwwDot rawHostname = "" <;>
        simp [hdom]
  | some unblocked =>
    simp only [hub, List.filter_nil, List.find?_nil, Option.getD_none]
    cases parseHostname (lowerAscii (jsTrim url)) with
    | none => rfl
    | some rawHostname =>
      by_cases hdom : stripWwwDot rawHostname = "" <;>
        simp [hdom]

/-! ### Engine results and the fallback loop (`scrapeURLWithFallbacks`) -/

/-- The fields of `EngineScrapeResult` used by the orchestrator and by
document finalization (`engines/index.ts`). -/
structure EngineScrapeResult where
  url : String
  html : Option String
  markdown : Option String
  statusCode : Int
  error : Option String
  contentType : Option String
  pdfNumPages : Option Int
  pdfTitle : Option String
  proxyUsed : Option String
deriving Repr, DecidableEq

/-- `isGoodStatusCode` of `scrapeURLWithFallbacks` (`index.ts` lines
197-199): 200-299 or 304. -/
def isGoodStatusCode (s : Int) : Bool :=
  (200 ≤ s && s < 300) || s == 304

/-- The content string the orchestrator checks (`index.ts` lines 170-194):
initially the trimmed engine HTML (or `""`); when Markdown is requested it
is replaced by the Markdown derived in main-content mode, falling back to
non-main-content mode when that is empty.  `mdMain`/`mdFull` are the
results of the two external `parseMarkdown ∘ htmlTransform` runs. -/
def checkMarkdownOf (needsMarkdown : Bool) (mdMain mdFull : String)
    (html : Option String) : String :=
  if needsMarkdown then
    if (jsTrim mdMain).length = 0 then mdFull else mdMain
  else jsTrim (html.getD "")

/-- The acceptance predicate of `scrapeURLWithFallbacks` (`index.ts` lines
196-209): `isLongEnough || !isGoodStatusCode`. -/
def attemptAccepted (needsMarkdown : Bool) (mdMain mdFull : String)
    (r : EngineScrapeResult) : Bool :=
  (jsTrim (checkMarkdownOf needsMarkdown mdMain mdFull r.html)).length > 0
    || !(isGoodStatusCode r.statusCode)

/-- The error classes the orchestrator distinguishes.  Modelled from the
spec where the source is missing: `scraper/scrapeURL/error.ts` is not part
of the provided sources, and the spec (§4.7 step 4) states that a rejected
engine result "record[s] `EngineUnsuccessfulError` and advance[s]", i.e.
`EngineUnsuccessfulError` belongs to the recorded-and-advance class caught
by the `instanceof EngineError` arm. -/
inductive OrchestratorError
  | engineUnsuccessful (engine : String)
  | engineError
  | sslError
  | dnsResolutionError
  | pdfAntibotError
  | documentAntibotError
  | pdfInsufficientTimeError
  | proxySelectionError
deriving Repr, DecidableEq

/-- The outcome of one engine attempt, as seen by the inner loop of
`scrapeURLWithFallbacks`: the engine returned a result (together with the
two externally derived Markdown strings), threw `AddFeatureError`, threw a
recoverable transport/engine error, or threw an unrecognized error that is
re-thrown. -/
inductive AttemptOutcome
  | ok (r : EngineScrapeResult) (mdMain mdFull : String)
  | addFeature
  | recoverable (e : OrchestratorError)
  | fatal
deriving Repr

/-- What one round of the inner engine loop produces. -/
inductive InnerLoopResult
  | finalized (r : EngineScrapeResult)
  | featureEscalation
  | exhausted (lastError : Option OrchestratorError)
  | thrown
deriving Repr, DecidableEq

/-- The inner `for`-loop of `scrapeURLWithFallbacks` (`index.ts` lines
165-235) over the fallback list, with each attempt's behaviour supplied as
an `AttemptOutcome`: an accepted result returns via `finalizeDocument`; a
rejected result throws `EngineUnsuccessfulError`, which is recorded as the
last error and the loop advances; `AddFeatureError` breaks out for a new
outer round; recoverable errors are recorded and the loop advances;
anything else propagates. -/
def runEngineLoop (needsMarkdown : Bool) (lastError : Option OrchestratorError) :
    List (String × AttemptOutcome) → InnerLoopResult
  | [] => .exhausted lastError
  | (engine, outcome) :: rest =>
    match outcome with
    | .ok r mdMain mdFull =>
      if attemptAccepted needsMarkdown mdMain mdFull r then .finalized r
      else runEngineLoop needsMarkdown (some (.engineUnsuccessful engine)) rest
    | .addFeature => .featureEscalation
    | .recoverable e => runEngineLoop needsMarkdown (some e) rest
    | .fatal => .thrown

/-- C1: an engine attempt that completes without throwing is accepted and
finalized if and only if the derived Markdown (or, when Markdown is not
requested, the trimmed engine HTML) is non-empty or the status code lies
outside the success range (200-299 or 304); otherwise the loop records
`EngineUnsuccessfulError` for this engine and advances to the remaining
engines. -/
theorem scrapeURLWithFallbacks_acceptance (needsMarkdown : Bool)
    (lastError : Option OrchestratorError) (engine : String)
    (r : EngineScrapeResult) (mdMain mdFull : String)
    (rest : List (String × AttemptOutcome)) :
    (attemptAccepted needsMarkdown mdMain mdFull r = true ↔
      (jsTrim (if needsMarkdown then
          (if jsTrim mdMain = "" then mdFull else mdMain)
        else (r.html.getD "")) ≠ ""
        ∨ ¬((200 ≤ r.statusCode ∧ r.statusCode < 300) ∨ r.statusCode = 304)))
    ∧ (attemptAccepted needsMarkdown mdMain mdFull r = true →
        runEngineLoop needsMarkdown lastError
            ((engine, .ok r mdMain mdFull) :: rest) = .finalized r)
    ∧ (attemptAccepted needsMarkdown mdMain mdFull r = false →
        runEngineLoop needsMarkdown lastError
            ((engine, .ok r mdMain mdFull) :: rest) =
          runEngineLoop needsMarkdown
            (some (.engineUnsuccessful engine)) rest) := by
  refine ⟨?_, ?_, ?_⟩
  · have hA : ∀ t : String, 0 < (jsTrim t).length ↔ jsTrim t ≠ "" := fun t =>
      (Nat.pos_iff_ne_zero).trans (not_congr (jsTrim_length_eq_zero_iff t))
    have hB : jsTrim (checkMarkdownOf needsMarkdown mdMain mdFull r.html) ≠ ""
        ↔ jsTrim (if needsMarkdown then
            (if jsTrim mdMain = "" then mdFull else mdMain)
          else (r.html.getD "")) ≠ "" := by
      cases needsMarkdown with
      | true =>
        have heq : checkMarkdownOf true mdMain mdFull r.html =
            (if jsTrim mdMain = "" then mdFull else mdMain) := by
          by_cases hm : jsTrim mdMain = "" <;>
            simp [checkMarkdownOf, jsTrim_length_eq_zero_iff, hm]
        rw [heq]
        exact Iff.rfl
      | false =>
        show jsTrim (jsTrim (r.html.getD "")) ≠ "" ↔ _
        simp only [Bool.false_eq_true, if_false]
        exact not_congr (jsTrim_jsTrim_eq_empty_iff _)
    have hC : isGoodStatusCode r.statusCode = false ↔
        ¬((200 ≤ r.statusCode ∧ r.statusCode < 300) ∨ r.statusCode = 304) := by
      simp only [isGoodStatusCode, Bool.or_eq_false_iff, Bool.and_eq_false_iff,
        beq_eq_false_iff_ne, decide_eq_false_iff_not, not_or, ne_eq]
      tauto
    simp only [attemptAccepted, Bool.or_eq_true, Bool.not_eq_true',
      decide_eq_true_eq, gt_iff_lt]
    exact or_congr ((hA _).trans hB) hC
  · intro h
    simp [runEngineLoop, h]
  · intro h
    simp [runEngineLoop, h]

/-- A sample fetch-engine result with non-empty HTML and status 200. -/
def sampleResultHtml : EngineScrapeResult where
  url := "https://example.com/"
  html := some "<p>hi</p>"
  markdown := none
  statusCode := 200
  error := none
  contentType := none
  pdfNumPages := none
  pdfTitle := none
  proxyUsed := none

/-- A sample fetch-engine result with empty HTML and status 200. -/
def sampleResultEmpty : EngineScrapeResult :=
  { sampleResultHtml with html := some "" }

/-- C1 witness: with Markdown not requested, an attempt whose engine HTML
is non-empty is finalized, and an attempt with empty HTML and status 200
is rejected, recording `EngineUnsuccessfulError` and advancing. -/
theorem scrapeURLWithFallbacks_acceptance_witness :
    runEngineLoop false none [("fetch", .ok sampleResultHtml "" "")] =
      .finalized sampleResultHtml
    ∧ runEngineLoop false none [("fetch", .ok sampleResultEmpty "" "")] =
      .exhausted (some (.engineUnsuccessful "fetch")) := by
  constructor
  · exact (scrapeURLWithFallbacks_acceptance false none "fetch"
      sampleResultHtml "" "" []).2.1 (by decide)
  · exact ((scrapeURLWithFallbacks_acceptance false none "fetch"
      sampleResultEmpty "" "" []).2.2 (by decide)).trans rfl

/-! ### Gatekeeper (`evaluateGatekeeper` and its configuration) -/

/-- Block classes assigned by the gatekeeper. -/
inductive BlockClass
  | challenge
  | login
  | soft_block
  | thin
  | none
deriving DecidableEq, Repr

/-- The user-visible content status. -/
inductive ContentStatus
  | usable
  | thin
  | challenge
  | login
  | soft_block
deriving DecidableEq, Repr

/-- The closed set of gatekeeper signals (the `redirect_to_login` payload
`string | string[]` is normalized to a list, as `matchesSignal` itself
does). -/
inductive Signal
  | contains_script (value : String)
  | title_matches (value : String)
  | body_text_len_lt (value : Int)
  | status_in (value : List Int)
  | redirect_to_login (value : List String)
  | html_bytes_lt (value : Int)
  | visible_text_len_lt (value : Int)
  | main_content_len_lt (value : Int)
  | has_structured_data (value : Bool)
deriving DecidableEq, Repr

/-- The `type` tag of a signal, as pushed into the evidence record. -/
def signalTypeName : Signal → String
  | .contains_script _ => "contains_script"
  | .title_matches _ => "title_matches"
  | .body_text_len_lt _ => "body_text_len_lt"
  | .status_in _ => "status_in"
  | .redirect_to_login _ => "redirect_to_login"
  | .html_bytes_lt _ => "html_bytes_lt"
  | .visible_text_len_lt _ => "visible_text_len_lt"
  | .main_content_len_lt _ => "main_content_len_lt"
  | .has_structured_data _ => "has_structured_data"

/-- A configured gatekeeper rule (`block_class` is typed
`Exclude<BlockClass, "none">` in the source; confidences are real numbers,
modelled as rationals). -/
structure GatekeeperRule where
  id : String
  block_class : BlockClass
  signals : List Signal
  confidence : Option Rat
deriving DecidableEq, Repr

/-- Fully resolved content thresholds. -/
structure ContentThresholds where
  min_html_bytes : Int
  min_visible_text_chars : Int
  min_main_content_chars : Int
  require_structured_data : Bool
deriving DecidableEq, Repr

/-- Thresholds as they may appear in the rules file (every field
optional). -/
structure ThresholdsIn where
  min_html_bytes : Option Int
  min_visible_text_chars : Option Int
  min_main_content_chars : Option Int
  require_structured_data : Option Bool
deriving DecidableEq, Repr

/-- A `global` or per-domain section of the rules file. -/
structure DomainRuleConfigIn where
  rules : Option (List GatekeeperRule)
  thresholds : Option ThresholdsIn
deriving DecidableEq, Repr

/-- The parsed rules file (`domains` is a string-keyed object). -/
structure GatekeeperConfig where
  global : Option DomainRuleConfigIn
  domains : List (String × DomainRuleConfigIn)
deriving DecidableEq, Repr

/-- The resolved per-host configuration produced by `getDomainConfig`. -/
structure DomainRuleConfig where
  rules : List GatekeeperRule
  thresholds : ContentThresholds
deriving DecidableEq, Repr

/-- `defaultThresholds`: the values of the module-level defaults when the
`MIN_HTML_BYTES`, `MIN_VISIBLE_TEXT_CHARS` and `MIN_MAIN_CONTENT_CHARS`
environment variables are unset (`Number(undefined ?? n) = n`). -/
def defaultThresholds : ContentThresholds where
  min_html_bytes := 2048
  min_visible_text_chars := 600
  min_main_content_chars := 400
  require_structured_data := false

/-- `getDomainConfig`, resolving per-host rules and thresholds against the
`global` section and the defaults (`domainRules?.x ?? cfg.global?.x ??
defaultThresholds.x` for each threshold field).  `host` models
`new URL(url).hostname`; the source lowercases it before the lookup. -/
def getDomainConfig (defaults : ContentThresholds) (cfg : GatekeeperConfig)
    (host : String) : DomainRuleConfig :=
  let domainRules := cfg.domains.lookup (lowerAscii host)
  { rules := ((domainRules.bind (·.rules)).orElse
      (fun _ => cfg.global.bind (·.rules))).getD []
    thresholds :=
      { min_html_bytes :=
          (((domainRules.bind (·.thresholds)).bind (·.min_html_bytes)).orElse
            (fun _ => (cfg.global.bind (·.thresholds)).bind (·.min_html_bytes))).getD
            defaults.min_html_bytes
        min_visible_text_chars :=
          (((domainRules.bind (·.thresholds)).bind (·.min_visible_text_chars)).orElse
            (fun _ => (cfg.global.bind (·.thresholds)).bind (·.min_visible_text_chars))).getD
            defaults.min_visible_text_chars
        min_main_content_chars :=
          (((domainRules.bind (·.thresholds)).bind (·.min_main_content_chars)).orElse
            (fun _ => (cfg.global.bind (·.thresholds)).bind (·.min_main_content_chars))).getD
            defaults.min_main_content_chars
        require_structured_data :=
          (((domainRules.bind (·.thresholds)).bind (·.require_structured_data)).orElse
            (fun _ => (cfg.global.bind (·.thresholds)).bind (·.require_structured_data))).getD
            defaults.require_structured_data } }

/-- One evidence entry of the gatekeeper result. -/
structure GatekeeperEvidence where
  ruleId : String
  signals : List String
  blockClass : BlockClass
  confidence : Rat
deriving DecidableEq, Repr

/-- The quality record of the gatekeeper result. -/
structure ContentQuality where
  htmlBytes : Int
  visibleTextChars : Int
  mainContentChars : Int
  hasStructuredData : Bool
  thresholds : ContentThresholds
deriving DecidableEq, Repr

/-- The gatekeeper result. -/
structure GatekeeperResult where
  blockClass : BlockClass
  confidence : Rat
  evidence : List GatekeeperEvidence
  quality : ContentQuality
  contentStatus : ContentStatus
deriving DecidableEq, Repr

/-- The cheerio-derived quantities of `evaluateGatekeeper`: `visibleText`
from `getVisibleText` (script/style/noscript removed, whitespace
collapsed), the derived main-content character count (main/article text
length, falling back to the full text length) and `detectStructuredData`
(presence of a JSON-LD script tag).  HTML parsing is external to the
repository, so these are oracle inputs. -/
structure DerivedContent where
  visibleText : String
  mainContentChars : Int
  hasStructuredData : Bool
deriving DecidableEq, Repr

/-- The input record of `evaluateGatekeeper`. -/
structure GatekeeperInput where
  url : String
  finalUrl : String
  statusCode : Int
  html : String
  title : String
  mainContentChars : Option Int
deriving DecidableEq, Repr

/-- The signal-matching context built by `evaluateGatekeeper`. -/
structure SignalCtx where
  statusCode : Int
  html : String
  title : String
  finalUrl : String
  visibleText : String
  mainContentChars : Int
  htmlBytes : Int
deriving DecidableEq, Repr

/-- `matchesSignal`.  String lengths model the JS `length` property;
`htmlBytes` is the UTF-8 byte length computed by `Buffer.byteLength`. -/
def matchesSignal (signal : Signal) (ctx : SignalCtx) : Bool :=
  match signal with
  | .contains_script v => strHas ctx.html v
  | .title_matches v => strHas ctx.title v
  | .body_text_len_lt v => (ctx.visibleText.length : Int) < v
  | .status_in vs => vs.contains ctx.statusCode
  | .redirect_to_login vs => vs.any (fun v => strHas ctx.finalUrl v)
  | .html_bytes_lt v => ctx.htmlBytes < v
  | .visible_text_len_lt v => (ctx.visibleText.length : Int) < v
  | .main_content_len_lt v => ctx.mainContentChars < v
  | .has_structured_data v =>
    if v then strHas ctx.html "application/ld+json"
    else !(strHas ctx.html "application/ld+json")

/-- The signal names of a rule that match the context
(`rule.signals.filter(...).map(signal => signal.type)`). -/
def matchedSignalNames (rule : GatekeeperRule) (ctx : SignalCtx) : List String :=
  (rule.signals.filter (fun s => matchesSignal s ctx)).map signalTypeName

/-- A rule fires when all of its signals match and it has at least one
signal (`matchedSignals.length === rule.signals.length &&
matchedSignals.length > 0`). -/
def ruleFires (rule : GatekeeperRule) (ctx : SignalCtx) : Bool :=
  (matchedSignalNames rule ctx).length == rule.signals.length
    && (matchedSignalNames rule ctx).length > 0

/-- The evidence entry pushed for a fired rule, with default confidence
`Math.min(1, 0.5 + matched * 0.1)`. -/
def ruleEvidenceOf (rule : GatekeeperRule) (ctx : SignalCtx) : GatekeeperEvidence :=
  { ruleId := rule.id
    signals := matchedSignalNames rule ctx
    blockClass := rule.block_class
    confidence := rule.confidence.getD
      (min 1 ((1 : Rat)/2 + ((matchedSignalNames rule ctx).length : Rat) * ((1 : Rat)/10))) }

/-- The evidence entries of all fired rules, in rule order. -/
def gkFiredEvidence (rules : List GatekeeperRule) (ctx : SignalCtx) :
    List GatekeeperEvidence :=
  rules.filterMap (fun rule =>
    if ruleFires rule ctx then some (ruleEvidenceOf rule ctx) else Option.none)

/-- `evidence.sort((a, b) => b.confidence - a.confidence)`: stable sort by
confidence descending (ECMAScript `Array.prototype.sort` is stable). -/
def sortEvidence (evs : List GatekeeperEvidence) : List GatekeeperEvidence :=
  evs.mergeSort (fun a b => b.confidence ≤ a.confidence)

/-- The signal names pushed by the content-thinness check, in source
order.  (The `?? defaultThresholds.x` fallbacks at this point in the
source are no-ops: `getDomainConfig` always returns fully resolved
thresholds.) -/
def thinSignalsOf (t : ContentThresholds) (htmlBytes visibleLen mainChars : Int)
    (hasStructuredData : Bool) : List String :=
  (if htmlBytes < t.min_html_bytes then ["html_bytes_lt"] else []) ++
  (if visibleLen < t.min_visible_text_chars then ["visible_text_len_lt"] else []) ++
  (if mainChars < t.min_main_content_chars then ["main_content_len_lt"] else []) ++
  (if t.require_structured_data && !hasStructuredData then ["missing_structured_data"] else [])

/-- The 1:1 derivation of `contentStatus` from the block class. -/
def contentStatusOf : BlockClass → ContentStatus
  | .none => .usable
  | .thin => .thin
  | .login => .login
  | .soft_block => .soft_block
  | .challenge => .challenge

/-- The signal context built by `evaluateGatekeeper` (`finalUrl ||
url` for the final URL, `Buffer.byteLength(html)` for `htmlBytes`,
`input.mainContentChars ?? derived` for the main-content count). -/
def gkCtx (input : GatekeeperInput) (derived : DerivedContent) : SignalCtx :=
  { statusCode := input.statusCode
    html := input.html
    title := input.title
    finalUrl := if input.finalUrl = "" then input.url else input.finalUrl
    visibleText := derived.visibleText
    mainContentChars := input.mainContentChars.getD derived.mainContentChars
    htmlBytes := (input.html.utf8ByteSize : Int) }

/-- The quality record built by `evaluateGatekeeper`. -/
def gkQuality (t : ContentThresholds) (input : GatekeeperInput)
    (derived : DerivedContent) : ContentQuality :=
  { htmlBytes := (input.html.utf8ByteSize : Int)
    visibleTextChars := (derived.visibleText.length : Int)
    mainContentChars := input.mainContentChars.getD derived.mainContentChars
    hasStructuredData := derived.hasStructuredData
    thresholds := t }

/-- `evaluateGatekeeper` (`host` stands for the hostname of
`input.finalUrl || input.url`, whose URL parsing is external).  Fired
rules are collected and sorted by confidence descending; the winner sets
block class and confidence; if none fired, the content-thinness check
applies the resolved thresholds. -/
def evaluateGatekeeper (defaults : ContentThresholds) (cfg : GatekeeperConfig)
    (host : String) (derived : DerivedContent) (input : GatekeeperInput) :
    GatekeeperResult :=
  let domainConfig := getDomainConfig defaults cfg host
  let ctx := gkCtx input derived
  let quality := gkQuality domainConfig.thresholds input derived
  let sorted := sortEvidence (gkFiredEvidence domainConfig.rules ctx)
  let blockClass0 := match sorted.head? with
    | Option.none => BlockClass.none
    | some e => e.blockClass
  let confidence0 := match sorted.head? with
    | Option.none => (0 : Rat)
    | some e => e.confidence
  if blockClass0 = BlockClass.none then
    let t := domainConfig.thresholds
    let thinSignals := thinSignalsOf t ctx.htmlBytes
      (derived.visibleText.length : Int) ctx.mainContentChars derived.hasStructuredData
    if 0 < thinSignals.length then
      let conf := min 1 ((2 : Rat)/5 + (thinSignals.length : Rat) * ((3 : Rat)/20))
      { blockClass := BlockClass.thin
        confidence := conf
        evidence := sorted ++ [⟨"content-thin", thinSignals, BlockClass.thin, conf⟩]
        quality := quality
        contentStatus := contentStatusOf BlockClass.thin }
    else
      { blockClass := blockClass0
        confidence := confidence0
        evidence := sorted
        quality := quality
        contentStatus := contentStatusOf blockClass0 }
  else
    { blockClass := blockClass0
      confidence := confidence0
      evidence := sorted
      quality := quality
      contentStatus := contentStatusOf blockClass0 }

theorem thinSignalsOf_length (t : ContentThresholds) (hb vl mc : Int) (sd : Bool) :
    (thinSignalsOf t hb vl mc sd).length =
      (if hb < t.min_html_bytes then 1 else 0) +
      (if vl < t.min_visible_text_chars then 1 else 0) +
      (if mc < t.min_main_content_chars then 1 else 0) +
      (if t.require_structured_data = true ∧ sd = false then 1 else 0) := by
  by_cases h1 : hb < t.min_html_bytes <;>
    by_cases h2 : vl < t.min_visible_text_chars <;>
      by_cases h3 : mc < t.min_main_content_chars <;>
        cases hsd : sd <;> cases hrq : t.require_structured_data <;>
          simp [thinSignalsOf, h1, h2, h3, hrq]

/-- C2: when no configured rule fires, the gatekeeper assigns block class
`thin` exactly when at least one of the four thresholds fails (with
missing threshold fields resolved to the defaults {2048, 600, 400, false}
by `getDomainConfig`), in that case with confidence
`min(1, 0.4 + 0.15 × failing-count)`; when no threshold fails the block
class is `none` and the content status `usable`. -/
theorem evaluateGatekeeper_thin_thresholds (cfg : GatekeeperConfig)
    (host : String) (derived : DerivedContent) (input : GatekeeperInput)
    (n : Nat)
    (hn : n =
      (if (input.html.utf8ByteSize : Int) <
          (getDomainConfig defaultThresholds cfg host).thresholds.min_html_bytes
        then 1 else 0) +
      (if (derived.visibleText.length : Int) <
          (getDomainConfig defaultThresholds cfg host).thresholds.min_visible_text_chars
        then 1 else 0) +
      (if input.mainContentChars.getD derived.mainContentChars <
          (getDomainConfig defaultThresholds cfg host).thresholds.min_main_content_chars
        then 1 else 0) +
      (if (getDomainConfig defaultThresholds cfg host).thresholds.require_structured_data = true
          ∧ derived.hasStructuredData = false
        then 1 else 0))
    (hnofire : ∀ rule ∈ (getDomainConfig defaultThresholds cfg host).rules,
      ruleFires rule (gkCtx input derived) = false) :
    ((evaluateGatekeeper defaultThresholds cfg host derived input).blockClass
        = BlockClass.thin ↔ 0 < n)
    ∧ (0 < n →
        (evaluateGatekeeper defaultThresholds cfg host derived input).confidence
          = min 1 ((2 : Rat)/5 + (n : Rat) * ((3 : Rat)/20)))
    ∧ (n = 0 →
        (evaluateGatekeeper defaultThresholds cfg host derived input).blockClass
            = BlockClass.none
        ∧ (evaluateGatekeeper defaultThresholds cfg host derived input).contentStatus
            = ContentStatus.usable) := by
  have hfm : gkFiredEvidence (getDomainConfig defaultThresholds cfg host).rules
      (gkCtx input derived) = [] := by
    rw [gkFiredEvidence, List.filterMap_eq_nil_iff]
    intro rule hr
    simp [hnofire rule hr]
  have hsorted : sortEvidence (gkFiredEvidence
      (getDomainConfig defaultThresholds cfg host).rules (gkCtx input derived)) = [] := by
    rw [hfm]
    simp [sortEvidence]
  have hlen : (thinSignalsOf (getDomainConfig defaultThresholds cfg host).thresholds
      (gkCtx input derived).htmlBytes (derived.visibleText.length : Int)
      (gkCtx input derived).mainContentChars derived.hasStructuredData).length = n := by
    rw [hn, thinSignalsOf_length]
    rfl
  simp only [evaluateGatekeeper, hsorted, List.head?_nil]
  rw [hlen]
  by_cases hpos : 0 < n
  · refine ⟨?_, fun _ => ?_, fun h0 => absurd h0 (by omega)⟩ <;>
      simp [hpos, contentStatusOf]
  · refine ⟨?_, fun h => absurd h hpos, fun _ => ?_⟩ <;>
      simp [hpos, contentStatusOf]

/-- An empty gatekeeper rules configuration. -/
def gkCfgEmpty : GatekeeperConfig := ⟨Option.none, []⟩

/-- Derived content of an empty page. -/
def gkDerivedEmpty : DerivedContent := ⟨"", 0, false⟩

/-- Gatekeeper input for an empty page at `https://example.com/`. -/
def gkInputEmpty : GatekeeperInput :=
  ⟨"https://example.com/", "", 200, "", "", Option.none⟩

/-- C2 witness: with no rules configured, an empty page fails the three
numeric default thresholds, so the gatekeeper reports `thin` with
confidence `min(1, 0.4 + 3 × 0.15) = 0.85`. -/
theorem evaluateGatekeeper_thin_thresholds_witness :
    (evaluateGatekeeper defaultThresholds gkCfgEmpty "example.com"
        gkDerivedEmpty gkInputEmpty).blockClass = BlockClass.thin
    ∧ (evaluateGatekeeper defaultThresholds gkCfgEmpty "example.com"
        gkDerivedEmpty gkInputEmpty).confidence = (17 : Rat)/20 := by
  have h := evaluateGatekeeper_thin_thresholds gkCfgEmpty "example.com"
    gkDerivedEmpty gkInputEmpty 3 (by decide)
    (by intro rule hr; simp [getDomainConfig, gkCfgEmpty] at hr)
  refine ⟨h.1.mpr (by decide), ?_⟩
  rw [h.2.1 (by decide)]
  norm_num

/-! ### Fetch engine conditional-GET cache (`scrapeURLWithFetch`) -/

/-- An entry of the fetch engine's module-level `responseCache` map. -/
structure CacheEntry where
  etag : Option String
  lastModified : Option String
  body : Option String
  contentType : Option String
  status : Option Int
deriving DecidableEq, Repr

/-- One HTTP response as observed by the fetch engine: the final URL after
redirects, the status, the response headers and the decoded body text
(charset decoding is external to the repository). -/
structure ServerResponse where
  url : String
  status : Int
  headers : List (String × String)
  bodyText : String
deriving DecidableEq, Repr

/-- The engine result fields relevant to the cache behaviour. -/
structure FetchEngineResult where
  url : String
  html : String
  statusCode : Int
  contentType : Option String
deriving DecidableEq, Repr

/-- The conditional headers attached by `scrapeURLWithFetch` (part_005
lines 33-40): `If-None-Match` when the cache holds a truthy `etag` and
`meta.options.headers?.["If-None-Match"]` is falsy, and likewise
`If-Modified-Since` for `lastModified`. -/
def fetchConditionalHeaders (cached : Option CacheEntry)
    (callerHeaders : List (String × String)) : List (String × String) :=
  (if jsTruthy (cached.bind (·.etag))
      && !(jsTruthy (callerHeaders.lookup "If-None-Match")) then
    [("If-None-Match", (cached.bind (·.etag)).getD "")]
  else []) ++
  (if jsTruthy (cached.bind (·.lastModified))
      && !(jsTruthy (callerHeaders.lookup "If-Modified-Since")) then
    [("If-Modified-Since", (cached.bind (·.lastModified)).getD "")]
  else [])

/-- The headers actually sent: `{ ...meta.options.headers,
...conditionalHeaders }`. -/
def fetchSentHeaders (cached : Option CacheEntry)
    (callerHeaders : List (String × String)) : List (String × String) :=
  jsMerge callerHeaders (fetchConditionalHeaders cached callerHeaders)

/-- One run of `scrapeURLWithFetch` (part_005 lines 22-136) against the
given cache state, with the received response supplied as `resp`: on a
`304` with a truthy cached body the cached body, status and content-type
are returned and the cache is untouched; otherwise the body is returned
and the cache entry for the URL is overwritten with the response's
validators, body, content-type and status. -/
def scrapeURLWithFetch (cache : List (String × CacheEntry)) (url : String)
    (resp : ServerResponse) : FetchEngineResult × List (String × CacheEntry) :=
  let cached := cache.lookup url
  if resp.status == 304 && jsTruthy (cached.bind (·.body)) then
    ({ url := resp.url
       html := (cached.bind (·.body)).getD ""
       statusCode := (cached.bind (·.status)).getD 304
       contentType := cached.bind (·.contentType) }, cache)
  else
    let entry : CacheEntry :=
      { etag := headersGet resp.headers "etag"
        lastModified := headersGet resp.headers "last-modified"
        body := some resp.bodyText
        contentType := headersGet resp.headers "content-type"
        status := some resp.status }
    ({ url := resp.url
       html := resp.bodyText
       statusCode := resp.status
       contentType := headersGet resp.headers "content-type" },
     recordSet cache url entry)

/-- A populated cache entry with a stored validator, body and status. -/
def cacheEntrySample : CacheEntry where
  etag := some "abc"
  lastModified := none
  body := some "B"
  contentType := some "text/html"
  status := some 200

/-- C4 counterexample: the caller did supply the `If-None-Match` header
(with value `""`), yet because the source tests the header with JS
truthiness (`!meta.options.headers?.["If-None-Match"]`), the cached
validator is still attached.  This refutes "attached only when ... the
caller did not supply that header themselves" as stated. -/
theorem fetchConditionalHeaders_counterexample :
    fetchConditionalHeaders (some cacheEntrySample) [("If-None-Match", "")] =
      [("If-None-Match", "abc")]
    ∧ [("If-None-Match", "")].lookup "If-None-Match" = some "" := by
  constructor
  · rfl
  · rfl

/-- C4 (amended): (1) after a non-304 response with a non-empty body is
cached, a subsequent 304 for the same URL returns the cached body as the
html and reports the cached status code and content-type rather than 304;
(2) a conditional header is attached exactly when the cache holds a
non-empty validator for it and the caller did not supply a non-empty
value for that header themselves. -/
theorem scrapeURLWithFetch_conditional_cache
    (cache0 : List (String × CacheEntry)) (url : String)
    (resp1 resp2 : ServerResponse) (cached : Option CacheEntry)
    (callerHeaders : List (String × String))
    (hst1 : resp1.status ≠ 304) (hbody : resp1.bodyText ≠ "")
    (hst2 : resp2.status = 304) :
    ((scrapeURLWithFetch ((scrapeURLWithFetch cache0 url resp1).2) url resp2).1 =
      { url := resp2.url
        html := resp1.bodyText
        statusCode := resp1.status
        contentType := headersGet resp1.headers "content-type" })
    ∧ ((fetchConditionalHeaders cached callerHeaders).lookup "If-None-Match"
          ≠ Option.none ↔
        ((∃ e, cached.bind CacheEntry.etag = some e ∧ e ≠ "")
          ∧ (callerHeaders.lookup "If-None-Match" = Option.none
            ∨ callerHeaders.lookup "If-None-Match" = some "")))
    ∧ ((fetchConditionalHeaders cached callerHeaders).lookup "If-Modified-Since"
          ≠ Option.none ↔
        ((∃ e, cached.bind CacheEntry.lastModified = some e ∧ e ≠ "")
          ∧ (callerHeaders.lookup "If-Modified-Since" = Option.none
            ∨ callerHeaders.lookup "If-Modified-Since" = some ""))) := by
  have hkeyne : ("If-None-Match" == "If-Modified-Since") = false := by decide
  have hkeyne' : ("If-Modified-Since" == "If-None-Match") = false := by decide
  refine ⟨?_, ?_, ?_⟩
  · have hc1 : (resp1.status == 304) = false := beq_eq_false_iff_ne.mpr hst1
    have h2 : (scrapeURLWithFetch cache0 url resp1).2 =
        recordSet cache0 url
          { etag := headersGet resp1.headers "etag"
            lastModified := headersGet resp1.headers "last-modified"
            body := some resp1.bodyText
            contentType := headersGet resp1.headers "content-type"
            status := some resp1.status } := by
      simp [scrapeURLWithFetch, hc1]
    rw [h2]
    have hlk := lookup_recordSet cache0 url
      ({ etag := headersGet resp1.headers "etag"
         lastModified := headersGet resp1.headers "last-modified"
         body := some resp1.bodyText
         contentType := headersGet resp1.headers "content-type"
         status := some resp1.status } : CacheEntry)
    simp [scrapeURLWithFetch, hlk, hst2, jsTruthy, hbody]
  · have haux1 : jsTruthy (cached.bind (·.etag)) = true ↔
        (∃ e, cached.bind CacheEntry.etag = some e ∧ e ≠ "") := by
      cases hce : cached.bind (·.etag) with
      | none => simp [jsTruthy, hce]
      | some e => simp [jsTruthy, hce]
    have haux2 : jsTruthy (callerHeaders.lookup "If-None-Match") = false ↔
        (callerHeaders.lookup "If-None-Match" = Option.none
          ∨ callerHeaders.lookup "If-None-Match" = some "") := by
      cases hcl : callerHeaders.lookup "If-None-Match" with
      | none => simp [jsTruthy]
      | some s => simp [jsTruthy]
    have hRHS : ((∃ e, cached.bind CacheEntry.etag = some e ∧ e ≠ "")
        ∧ (callerHeaders.lookup "If-None-Match" = Option.none
          ∨ callerHeaders.lookup "If-None-Match" = some "")) ↔
        (jsTruthy (cached.bind (·.etag)) = true
          ∧ jsTruthy (callerHeaders.lookup "If-None-Match") = false) :=
      and_congr haux1.symm haux2.symm
    by_cases hcnd : (jsTruthy (cached.bind (·.etag))
        && !(jsTruthy (callerHeaders.lookup "If-None-Match"))) = true
    · have hlk : (fetchConditionalHeaders cached callerHeaders).lookup
          "If-None-Match" = some ((cached.bind (·.etag)).getD "") := by
        rw [fetchConditionalHeaders, if_pos hcnd, List.cons_append,
          List.lookup_cons]
        simp
      have hsplit : jsTruthy (cached.bind (·.etag)) = true
          ∧ (!(jsTruthy (callerHeaders.lookup "If-None-Match"))) = true := by
        rw [← Bool.and_eq_true]
        exact hcnd
      have hA : jsTruthy (cached.bind (·.etag)) = true := hsplit.1
      have hB : jsTruthy (callerHeaders.lookup "If-None-Match") = false := by
        simpa using hsplit.2
      rw [hlk, hRHS]
      simp [hA, hB]
    · have hlk : (fetchConditionalHeaders cached callerHeaders).lookup
          "If-None-Match" = Option.none := by
        rw [fetchConditionalHeaders, if_neg hcnd, List.nil_append]
        by_cases hcnd2 : (jsTruthy (cached.bind (·.lastModified))
            && !(jsTruthy (callerHeaders.lookup "If-Modified-Since"))) = true
        · rw [if_pos hcnd2, List.lookup_cons]
          simp [hkeyne]
        · rw [if_neg hcnd2]
          rfl
      rw [hlk, hRHS]
      constructor
      · intro h
        exact absurd rfl h
      · rintro ⟨hA, hB⟩
        refine absurd ?_ hcnd
        rw [hA, hB]
        rfl
  · have haux1 : jsTruthy (cached.bind (·.lastModified)) = true ↔
        (∃ e, cached.bind CacheEntry.lastModified = some e ∧ e ≠ "") := by
      cases hce : cached.bind (·.lastModified) with
      | none => simp [jsTruthy, hce]
      | some e => simp [jsTruthy, hce]
    have haux2 : jsTruthy (callerHeaders.lookup "If-Modified-Since") = false ↔
        (callerHeaders.lookup "If-Modified-Since" = Option.none
          ∨ callerHeaders.lookup "If-Modified-Since" = some "") := by
      cases hcl : callerHeaders.lookup "If-Modified-Since" with
      | none => simp [jsTruthy]
      | some s => simp [jsTruthy]
    have hRHS : ((∃ e, cached.bind CacheEntry.lastModified = some e ∧ e ≠ "")
        ∧ (callerHeaders.lookup "If-Modified-Since" = Option.none
          ∨ callerHeaders.lookup "If-Modified-Since" = some "")) ↔
        (jsTruthy (cached.bind (·.lastModified)) = true
          ∧ jsTruthy (callerHeaders.lookup "If-Modified-Since") = false) :=
      and_congr haux1.symm haux2.symm
    by_cases hcnd2 : (jsTruthy (cached.bind (·.lastModified))
        && !(jsTruthy (callerHeaders.lookup "If-Modified-Since"))) = true
    · have hlk : (fetchConditionalHeaders cached callerHeaders).lookup
          "If-Modified-Since" = some ((cached.bind (·.lastModified)).getD "") := by
        rw [fetchConditionalHeaders, if_pos hcnd2]
        by_cases hcnd1 : (jsTruthy (cached.bind (·.etag))
            && !(jsTruthy (callerHeaders.lookup "If-None-Match"))) = true
        · rw [if_pos hcnd1, List.cons_append, List.lookup_cons]
          simp [hkeyne', List.lookup_cons]
        · rw [if_neg hcnd1, List.nil_append, List.lookup_cons]
          simp
      have hsplit : jsTruthy (cached.bind (·.lastModified)) = true
          ∧ (!(jsTruthy (callerHeaders.lookup "If-Modified-Since"))) = true := by
        rw [← Bool.and_eq_true]
        exact hcnd2
      have hC : jsTruthy (cached.bind (·.lastModified)) = true := hsplit.1
      have hD : jsTruthy (callerHeaders.lookup "If-Modified-Since") = false := by
        simpa using hsplit.2
      rw [hlk, hRHS]
      simp [hC, hD]
    · have hlk : (fetchConditionalHeaders cached callerHeaders).lookup
          "If-Modified-Since" = Option.none := by
        rw [fetchConditionalHeaders, if_neg hcnd2, List.append_nil]
        by_cases hcnd1 : (jsTruthy (cached.bind (·.etag))
            && !(jsTruthy (callerHeaders.lookup "If-None-Match"))) = true
        · rw [if_pos hcnd1, List.lookup_cons]
          simp [hkeyne']
        · rw [if_neg hcnd1]
          rfl
      rw [hlk, hRHS]
      constructor
      · intro h
        exact absurd rfl h
      · rintro ⟨hC, hD⟩
        refine absurd ?_ hcnd2
        rw [hC, hD]
        rfl

/-- A first response: status 200, an `ETag` validator and body `"B"`. -/
def respFirstSample : ServerResponse where
  url := "https://e.com/"
  status := 200
  headers := [("ETag", "abc"), ("Content-Type", "text/html")]
  bodyText := "B"

/-- A revalidation response: status 304 with an empty body. -/
def resp304Sample : ServerResponse where
  url := "https://e.com/"
  status := 304
  headers := []
  bodyText := ""

/-- C4 witness: after a 200 response with body `"B"` fills the cache, a
304 for the same URL yields html `"B"`, status 200 and content-type
`text/html`; and with a cached validator and no caller-supplied header the
conditional header is attached. -/
theorem scrapeURLWithFetch_conditional_cache_witness :
    (scrapeURLWithFetch ((scrapeURLWithFetch [] "https://e.com/" respFirstSample).2)
        "https://e.com/" resp304Sample).1 =
      { url := "https://e.com/"
        html := "B"
        statusCode := 200
        contentType := some "text/html" }
    ∧ (fetchConditionalHeaders (some cacheEntrySample) []).lookup "If-None-Match"
        ≠ Option.none := by
  have h := scrapeURLWithFetch_conditional_cache [] "https://e.com/"
    respFirstSample resp304Sample (some cacheEntrySample) []
    (by decide) (by decide) (by decide)
  constructor
  · rw [h.1]
    decide
  · exact h.2.1.mpr ⟨⟨"abc", rfl, by decide⟩, Or.inl rfl⟩

/-! ### Crawl frontier (`crawlSite`, part_010 lines 351-496) -/

/-- The outcome of the per-URL scrape inside the crawl loop, as the loop
observes it: a failure, or a success carrying whether the body looked like
HTML (content-type or leading `<`), whether the depth gate
`relativeDepth < options.maxDepth` passed, and the filtered links produced
by `crawler.filterLinks` (the `WebCrawler` class is external to the
provided sources, so link filtering is an oracle). -/
inductive CrawlScrapeOutcome
  | failure
  | success (isHtmlLike : Bool) (depthOk : Bool) (links : List String)
deriving Repr

/-- The crawl driver's state: `discovered` (every URL ever enqueued, in
order), the FIFO `queue`, the counters behind the response `stats`, and
`pushLog`, the history of every `queue.push` (a proof artefact: the source
pushes exactly when it adds to `discovered`). -/
structure CrawlState where
  discovered : List String
  queue : List String
  processed : Nat
  succeeded : Nat
  failed : Nat
  pushLog : List String
deriving Repr

/-- The `enqueue` closure of `crawlSite` (part_010 lines 405-410): skip
URLs already discovered, skip once `discovered.size >= options.limit`,
otherwise add to `discovered` and push onto the queue. -/
def enqueue (limit : Nat) (s : CrawlState) (target : String) : CrawlState :=
  if s.discovered.contains target then s
  else if limit ≤ s.discovered.length then s
  else { s with
    discovered := s.discovered ++ [target]
    queue := s.queue ++ [target]
    pushLog := s.pushLog ++ [target] }

/-- `urls.forEach(enqueue)`. -/
def enqueueAll (limit : Nat) (s : CrawlState) (targets : List String) : CrawlState :=
  targets.foldl (enqueue limit) s

/-- The link-enqueue step of a successful iteration (part_010 lines
457-473): links are enqueued only when the body is HTML-like, the
remaining budget `Math.max(0, limit - discovered.size)` is positive and
the depth gate `relativeDepth < options.maxDepth` passed. -/
def maybeEnqueueLinks (limit : Nat) (isHtmlLike depthOk : Bool)
    (links : List String) (s1 : CrawlState) : CrawlState :=
  if isHtmlLike then
    (if 0 < limit - s1.discovered.length ∧ depthOk = true then
      enqueueAll limit s1 links
    else s1)
  else s1

/-- `pages.push(doc)`. -/
def recordSuccess (s2 : CrawlState) : CrawlState :=
  { s2 with succeeded := s2.succeeded + 1 }

/-- `errors.push(...)`. -/
def recordFailure (s1 : CrawlState) : CrawlState :=
  { s1 with failed := s1.failed + 1 }

/-- `const currentUrl = queue.shift()!; processed += 1;`. -/
def dequeueState (s : CrawlState) (rest : List String) : CrawlState :=
  { s with queue := rest, processed := s.processed + 1 }

/-- The `while (queue.length > 0 && processed < limit)` loop of
`crawlSite` (part_010 lines 432-480), driven by `fuel`: each iteration
dequeues one URL and increments `processed`, so `fuel := limit` iterations
are exhausted exactly when the `processed < limit` guard would stop the
loop; on success, links are enqueued via `maybeEnqueueLinks` and the page
is recorded; on failure the per-URL error is recorded. -/
def crawlLoop (limit : Nat) (oracle : String → CrawlScrapeOutcome) :
    Nat → CrawlState → CrawlState
  | 0, s => s
  | Nat.succ fuel, s =>
    match s.queue with
    | [] => s
    | currentUrl :: rest =>
      if limit ≤ s.processed then s
      else
        match oracle currentUrl with
        | .failure =>
          crawlLoop limit oracle fuel (recordFailure (dequeueState s rest))
        | .success isHtmlLike depthOk links =>
          crawlLoop limit oracle fuel
            (recordSuccess (maybeEnqueueLinks limit isHtmlLike depthOk links
              (dequeueState s rest)))

/-- The whole crawl: empty state, seed URL enqueued, sitemap URLs enqueued
through the same `enqueue`, then the dequeue loop. -/
def crawlSite (limit : Nat) (seedUrl : String) (sitemapUrls : List String)
    (oracle : String → CrawlScrapeOutcome) : CrawlState :=
  crawlLoop limit oracle limit
    (enqueueAll limit (enqueue limit ⟨[], [], 0, 0, 0, []⟩ seedUrl) sitemapUrls)

theorem enqueue_shape (limit : Nat) (s : CrawlState) (t : String) :
    enqueue limit s t = s ∨
    (s.discovered.contains t = false ∧
      enqueue limit s t = { s with
        discovered := s.discovered ++ [t], queue := s.queue ++ [t],
        pushLog := s.pushLog ++ [t] }) := by
  rw [enqueue]
  by_cases h1 : s.discovered.contains t = true
  · rw [if_pos h1]
    exact Or.inl rfl
  · rw [if_neg h1]
    by_cases h2 : limit ≤ s.discovered.length
    · rw [if_pos h2]
      exact Or.inl rfl
    · rw [if_neg h2]
      exact Or.inr ⟨Bool.eq_false_iff.mpr h1, rfl⟩

theorem enqueue_counters (limit : Nat) (s : CrawlState) (t : String) :
    (enqueue limit s t).processed = s.processed
    ∧ (enqueue limit s t).succeeded = s.succeeded
    ∧ (enqueue limit s t).failed = s.failed := by
  rcases enqueue_shape limit s t with h | ⟨_, h⟩ <;> rw [h] <;>
    exact ⟨rfl, rfl, rfl⟩

theorem enqueue_mono (limit : Nat) (s : CrawlState) (t : String) :
    ∃ d, (enqueue limit s t).discovered = s.discovered ++ d
      ∧ (enqueue limit s t).queue = s.queue ++ d
      ∧ (enqueue limit s t).pushLog = s.pushLog ++ d := by
  rcases enqueue_shape limit s t with h | ⟨_, h⟩
  · exact ⟨[], by simp [h]⟩
  · exact ⟨[t], by simp [h]⟩

theorem enqueue_inv2 (limit : Nat) (s : CrawlState) (t : String)
    (h : s.processed + s.queue.length ≤ s.discovered.length) :
    (enqueue limit s t).processed + (enqueue limit s t).queue.length
      ≤ (enqueue limit s t).discovered.length := by
  rcases enqueue_mono limit s t with ⟨d, hd, hq, _⟩
  rw [hd, hq, (enqueue_counters limit s t).1, List.length_append,
    List.length_append]
  omega

theorem enqueue_pushinv (limit : Nat) (s : CrawlState) (t : String)
    (h : s.pushLog = s.discovered ∧ s.discovered.Nodup) :
    (enqueue limit s t).pushLog = (enqueue limit s t).discovered
    ∧ (enqueue limit s t).discovered.Nodup := by
  rcases enqueue_shape limit s t with he | ⟨hc, he⟩
  · rw [he]
    exact h
  · rw [he]
    have hnot : t ∉ s.discovered := by
      intro hmem
      have hcon : s.discovered.contains t = true := List.elem_iff.mpr hmem
      rw [hc] at hcon
      exact Bool.false_ne_true hcon
    refine ⟨by rw [h.1], ?_⟩
    rw [List.nodup_append]
    exact ⟨h.2, List.nodup_singleton t, by
      intro a ha hb
      rw [List.mem_singleton] at hb
      subst hb
      exact hnot ha⟩

theorem enqueueAll_counters (limit : Nat) (targets : List String) :
    ∀ s : CrawlState,
      (enqueueAll limit s targets).processed = s.processed
      ∧ (enqueueAll limit s targets).succeeded = s.succeeded
      ∧ (enqueueAll limit s targets).failed = s.failed := by
  induction targets with
  | nil => intro s; exact ⟨rfl, rfl, rfl⟩
  | cons t ts ih =>
    intro s
    have h1 := enqueue_counters limit s t
    have h2 := ih (enqueue limit s t)
    rw [show enqueueAll limit s (t :: ts)
        = enqueueAll limit (enqueue limit s t) ts from rfl]
    exact ⟨h2.1.trans h1.1, h2.2.1.trans h1.2.1, h2.2.2.trans h1.2.2⟩

theorem enqueueAll_mono (limit : Nat) (targets : List String) :
    ∀ s : CrawlState,
      ∃ d, (enqueueAll limit s targets).discovered = s.discovered ++ d
        ∧ (enqueueAll limit s targets).queue = s.queue ++ d
        ∧ (enqueueAll limit s targets).pushLog = s.pushLog ++ d := by
  induction targets with
  | nil => intro s; exact ⟨[], by simp [enqueueAll]⟩
  | cons t ts ih =>
    intro s
    rcases enqueue_mono limit s t with ⟨d1, hd1, hq1, hp1⟩
    rcases ih (enqueue limit s t) with ⟨d2, hd2, hq2, hp2⟩
    refine ⟨d1 ++ d2, ?_, ?_, ?_⟩ <;>
      rw [enqueueAll, List.foldl_cons]
    · rw [show List.foldl (enqueue limit) (enqueue limit s t) ts
          = enqueueAll limit (enqueue limit s t) ts from rfl, hd2, hd1,
        List.append_assoc]
    · rw [show List.foldl (enqueue limit) (enqueue limit s t) ts
          = enqueueAll limit (enqueue limit s t) ts from rfl, hq2, hq1,
        List.append_assoc]
    · rw [show List.foldl (enqueue limit) (enqueue limit s t) ts
          = enqueueAll limit (enqueue limit s t) ts from rfl, hp2, hp1,
        List.append_assoc]

theorem enqueueAll_inv2 (limit : Nat) (targets : List String) (s : CrawlState)
    (h : s.processed + s.queue.length ≤ s.discovered.length) :
    (enqueueAll limit s targets).processed
        + (enqueueAll limit s targets).queue.length
      ≤ (enqueueAll limit s targets).discovered.length := by
  rcases enqueueAll_mono limit targets s with ⟨d, hd, hq, _⟩
  rw [hd, hq, (enqueueAll_counters limit targets s).1, List.length_append,
    List.length_append]
  omega

theorem enqueueAll_pushinv (limit : Nat) (targets : List String) :
    ∀ s : CrawlState, (s.pushLog = s.discovered ∧ s.discovered.Nodup) →
      (enqueueAll limit s targets).pushLog
          = (enqueueAll limit s targets).discovered
      ∧ (enqueueAll limit s targets).discovered.Nodup := by
  induction targets with
  | nil => intro s h; exact h
  | cons t ts ih =>
    intro s h
    rw [enqueueAll, List.foldl_cons]
    exact ih (enqueue limit s t) (enqueue_pushinv limit s t h)

/-- The loop invariant of the crawl driver. -/
def CrawlInv (limit : Nat) (s : CrawlState) : Prop :=
  s.succeeded + s.failed = s.processed
  ∧ s.processed + s.queue.length ≤ s.discovered.length
  ∧ s.processed ≤ limit
  ∧ s.pushLog = s.discovered
  ∧ s.discovered.Nodup

theorem enqueue_CrawlInv (limit : Nat) (s : CrawlState) (t : String)
    (h : CrawlInv limit s) : CrawlInv limit (enqueue limit s t) := by
  obtain ⟨h1, h2, h3, h4⟩ := h
  have hc := enqueue_counters limit s t
  exact ⟨by rw [hc.1, hc.2.1, hc.2.2]; exact h1,
    enqueue_inv2 limit s t h2, by rw [hc.1]; exact h3,
    enqueue_pushinv limit s t h4⟩

theorem enqueueAll_CrawlInv (limit : Nat) (targets : List String)
    (s : CrawlState) (h : CrawlInv limit s) :
    CrawlInv limit (enqueueAll limit s targets) := by
  obtain ⟨h1, h2, h3, h4⟩ := h
  have hc := enqueueAll_counters limit targets s
  exact ⟨by rw [hc.1, hc.2.1, hc.2.2]; exact h1,
    enqueueAll_inv2 limit targets s h2, by rw [hc.1]; exact h3,
    enqueueAll_pushinv limit targets s h4⟩

theorem maybeEnqueueLinks_counters (limit : Nat) (isHtmlLike depthOk : Bool)
    (links : List String) (s1 : CrawlState) :
    (maybeEnqueueLinks limit isHtmlLike depthOk links s1).processed = s1.processed
    ∧ (maybeEnqueueLinks limit isHtmlLike depthOk links s1).succeeded = s1.succeeded
    ∧ (maybeEnqueueLinks limit isHtmlLike depthOk links s1).failed = s1.failed := by
  rw [maybeEnqueueLinks]
  by_cases hh : isHtmlLike = true
  · rw [if_pos hh]
    by_cases hg : 0 < limit - s1.discovered.length ∧ depthOk = true
    · rw [if_pos hg]
      exact enqueueAll_counters limit links s1
    · rw [if_neg hg]
      exact ⟨rfl, rfl, rfl⟩
  · rw [if_neg hh]
    exact ⟨rfl, rfl, rfl⟩

theorem maybeEnqueueLinks_inv2 (limit : Nat) (isHtmlLike depthOk : Bool)
    (links : List String) (s1 : CrawlState)
    (h : s1.processed + s1.queue.length ≤ s1.discovered.length) :
    (maybeEnqueueLinks limit isHtmlLike depthOk links s1).processed
        + (maybeEnqueueLinks limit isHtmlLike depthOk links s1).queue.length
      ≤ (maybeEnqueueLinks limit isHtmlLike depthOk links s1).discovered.length := by
  rw [maybeEnqueueLinks]
  by_cases hh : isHtmlLike = true
  · rw [if_pos hh]
    by_cases hg : 0 < limit - s1.discovered.length ∧ depthOk = true
    · rw [if_pos hg]
      exact enqueueAll_inv2 limit links s1 h
    · rw [if_neg hg]
      exact h
  · rw [if_neg hh]
    exact h

theorem maybeEnqueueLinks_pushinv (limit : Nat) (isHtmlLike depthOk : Bool)
    (links : List String) (s1 : CrawlState)
    (h : s1.pushLog = s1.discovered ∧ s1.discovered.Nodup) :
    (maybeEnqueueLinks limit isHtmlLike depthOk links s1).pushLog
        = (maybeEnqueueLinks limit isHtmlLike depthOk links s1).discovered
    ∧ (maybeEnqueueLinks limit isHtmlLike depthOk links s1).discovered.Nodup := by
  rw [maybeEnqueueLinks]
  by_cases hh : isHtmlLike = true
  · rw [if_pos hh]
    by_cases hg : 0 < limit - s1.discovered.length ∧ depthOk = true
    · rw [if_pos hg]
      exact enqueueAll_pushinv limit links s1 h
    · rw [if_neg hg]
      exact h
  · rw [if_neg hh]
    exact h

theorem crawlLoop_CrawlInv (limit : Nat) (oracle : String → CrawlScrapeOutcome) :
    ∀ (fuel : Nat) (s : CrawlState), CrawlInv limit s →
      CrawlInv limit (crawlLoop limit oracle fuel s) := by
  intro fuel
  induction fuel with
  | zero => intro s h; exact h
  | succ fuel ih =>
    intro s h
    obtain ⟨h1, h2, h3, h4, h5⟩ := h
    cases hq : s.queue with
    | nil =>
      simp only [crawlLoop, hq]
      exact ⟨h1, h2, h3, h4, h5⟩
    | cons currentUrl rest =>
      simp only [crawlLoop, hq]
      by_cases hguard : limit ≤ s.processed
      · rw [if_pos hguard]
        exact ⟨h1, h2, h3, h4, h5⟩
      · rw [if_neg hguard]
        have hlen : s.processed + rest.length + 1 ≤ s.discovered.length := by
          rw [hq] at h2
          simp only [List.length_cons] at h2
          omega
        cases horacle : oracle currentUrl with
        | failure =>
          show CrawlInv limit
            (crawlLoop limit oracle fuel (recordFailure (dequeueState s rest)))
          apply ih
          refine ⟨?_, ?_, ?_, h4, h5⟩
          · show s.succeeded + (s.failed + 1) = s.processed + 1
            omega
          · show s.processed + 1 + rest.length ≤ s.discovered.length
            omega
          · show s.processed + 1 ≤ limit
            omega
        | success isHtmlLike depthOk links =>
          show CrawlInv limit (crawlLoop limit oracle fuel
            (recordSuccess (maybeEnqueueLinks limit isHtmlLike depthOk links
              (dequeueState s rest))))
          apply ih
          have hinvs1 : (dequeueState s rest).processed
              + (dequeueState s rest).queue.length
              ≤ (dequeueState s rest).discovered.length := by
            show s.processed + 1 + rest.length ≤ s.discovered.length
            omega
          have hmc := maybeEnqueueLinks_counters limit isHtmlLike depthOk links
            (dequeueState s rest)
          have hm2 := maybeEnqueueLinks_inv2 limit isHtmlLike depthOk links
            (dequeueState s rest) hinvs1
          have hmp := maybeEnqueueLinks_pushinv limit isHtmlLike depthOk links
            (dequeueState s rest) ⟨h4, h5⟩
          have hd1 : (dequeueState s rest).processed = s.processed + 1 := rfl
          have hd2 : (dequeueState s rest).succeeded = s.succeeded := rfl
          have hd3 : (dequeueState s rest).failed = s.failed := rfl
          refine ⟨?_, ?_, ?_, hmp⟩
          · show (maybeEnqueueLinks limit isHtmlLike depthOk links
                (dequeueState s rest)).succeeded + 1
              + (maybeEnqueueLinks limit isHtmlLike depthOk links
                (dequeueState s rest)).failed
              = (maybeEnqueueLinks limit isHtmlLike depthOk links
                (dequeueState s rest)).processed
            rw [hmc.1, hmc.2.1, hmc.2.2, hd1, hd2, hd3]
            omega
          · show (maybeEnqueueLinks limit isHtmlLike depthOk links
                (dequeueState s rest)).processed
              + (maybeEnqueueLinks limit isHtmlLike depthOk links
                (dequeueState s rest)).queue.length
              ≤ (maybeEnqueueLinks limit isHtmlLike depthOk links
                (dequeueState s rest)).discovered.length
            exact hm2
          · show (maybeEnqueueLinks limit isHtmlLike depthOk links
                (dequeueState s rest)).processed ≤ limit
            rw [hmc.1, hd1]
            omega

theorem maybeEnqueueLinks_mono (limit : Nat) (isHtmlLike depthOk : Bool)
    (links : List String) (s1 : CrawlState) :
    ∃ d, (maybeEnqueueLinks limit isHtmlLike depthOk links s1).discovered
      = s1.discovered ++ d := by
  rw [maybeEnqueueLinks]
  by_cases hh : isHtmlLike = true
  · rw [if_pos hh]
    by_cases hg : 0 < limit - s1.discovered.length ∧ depthOk = true
    · rw [if_pos hg]
      rcases enqueueAll_mono limit links s1 with ⟨d, hd, _, _⟩
      exact ⟨d, hd⟩
    · rw [if_neg hg]
      exact ⟨[], by simp⟩
  · rw [if_neg hh]
    exact ⟨[], by simp⟩

theorem crawlLoop_discovered_mono (limit : Nat)
    (oracle : String → CrawlScrapeOutcome) :
    ∀ (fuel : Nat) (s : CrawlState),
      ∃ d, (crawlLoop limit oracle fuel s).discovered = s.discovered ++ d := by
  intro fuel
  induction fuel with
  | zero =>
    intro s
    exact ⟨[], by simp [crawlLoop]⟩
  | succ fuel ih =>
    intro s
    cases hq : s.queue with
    | nil =>
      refine ⟨[], ?_⟩
      simp [crawlLoop, hq]
    | cons currentUrl rest =>
      by_cases hguard : limit ≤ s.processed
      · refine ⟨[], ?_⟩
        simp [crawlLoop, hq, hguard]
      · cases horacle : oracle currentUrl with
        | failure =>
          rcases ih (recordFailure (dequeueState s rest)) with ⟨d, hd⟩
          refine ⟨d, ?_⟩
          simp only [crawlLoop, hq, if_neg hguard, horacle]
          exact hd
        | success isHtmlLike depthOk links =>
          rcases maybeEnqueueLinks_mono limit isHtmlLike depthOk links
            (dequeueState s rest) with ⟨d1, hd1⟩
          rcases ih (recordSuccess (maybeEnqueueLinks limit isHtmlLike depthOk
            links (dequeueState s rest))) with ⟨d2, hd2⟩
          refine ⟨d1 ++ d2, ?_⟩
          simp only [crawlLoop, hq, if_neg hguard, horacle]
          rw [hd2]
          show (maybeEnqueueLinks limit isHtmlLike depthOk links
            (dequeueState s rest)).discovered ++ d2 = s.discovered ++ (d1 ++ d2)
          rw [hd1]
          show s.discovered ++ d1 ++ d2 = s.discovered ++ (d1 ++ d2)
          rw [List.append_assoc]

theorem crawlSite_CrawlInv (limit : Nat) (seedUrl : String)
    (sitemapUrls : List String) (oracle : String → CrawlScrapeOutcome) :
    CrawlInv limit (crawlSite limit seedUrl sitemapUrls oracle) := by
  apply crawlLoop_CrawlInv
  apply enqueueAll_CrawlInv
  apply enqueue_CrawlInv
  exact ⟨rfl, Nat.le_refl 0, Nat.zero_le limit, rfl, List.nodup_nil⟩

/-- C6: for every crawl, the final statistics satisfy
`succeeded + failed = processed` (pages plus per-URL errors account for
every dequeued URL) and `processed ≤ min(limit, discovered)`. -/
theorem crawlSite_stats (limit : Nat) (seedUrl : String)
    (sitemapUrls : List String) (oracle : String → CrawlScrapeOutcome) :
    (crawlSite limit seedUrl sitemapUrls oracle).succeeded
        + (crawlSite limit seedUrl sitemapUrls oracle).failed
      = (crawlSite limit seedUrl sitemapUrls oracle).processed
    ∧ (crawlSite limit seedUrl sitemapUrls oracle).processed
      ≤ min limit (crawlSite limit seedUrl sitemapUrls oracle).discovered.length := by
  obtain ⟨h1, h2, h3, _, _⟩ := crawlSite_CrawlInv limit seedUrl sitemapUrls oracle
  exact ⟨h1, Nat.le_min.mpr ⟨h3, by omega⟩⟩

/-- C7: within a single crawl the frontier never enqueues a URL twice:
the history of queue pushes equals the discovered list (every push is
paired with adding the URL to `discovered`), that history has no
duplicates, a URL already discovered is never enqueued again (`enqueue` is
the identity on it), and the discovered set only ever grows during the
loop. -/
theorem crawlSite_frontier_unique (limit : Nat) (seedUrl : String)
    (sitemapUrls : List String) (oracle : String → CrawlScrapeOutcome) :
    (crawlSite limit seedUrl sitemapUrls oracle).pushLog
        = (crawlSite limit seedUrl sitemapUrls oracle).discovered
    ∧ (crawlSite limit seedUrl sitemapUrls oracle).pushLog.Nodup
    ∧ (∀ (s : CrawlState) (t : String), t ∈ s.discovered →
        enqueue limit s t = s)
    ∧ (∀ (fuel : Nat) (s : CrawlState),
        ∃ d, (crawlLoop limit oracle fuel s).discovered = s.discovered ++ d) := by
  obtain ⟨_, _, _, h4, h5⟩ := crawlSite_CrawlInv limit seedUrl sitemapUrls oracle
  refine ⟨h4, by rw [h4]; exact h5, ?_, crawlLoop_discovered_mono limit oracle⟩
  intro s t hmem
  rw [enqueue, if_pos (List.elem_iff.mpr hmem)]

/-- C7 witness: enqueuing a URL that is already discovered leaves the
state unchanged. -/
theorem crawlSite_frontier_unique_witness :
    enqueue 5 ⟨["https://a/"], [], 0, 0, 0, ["https://a/"]⟩ "https://a/"
      = ⟨["https://a/"], [], 0, 0, 0, ["https://a/"]⟩ :=
  (crawlSite_frontier_unique 5 "x" [] (fun _ => .failure)).2.2.1
    ⟨["https://a/"], [], 0, 0, 0, ["https://a/"]⟩ "https://a/"
    (List.mem_singleton.mpr rfl)

/-! ### Document finalization and transformers (`finalizeDocument`,
`executeTransformers`, `scrapeURL`) -/

/-- The metadata record of the public `Document` (part_012 lines 66-76;
the index-signature extension carries the gatekeeper attachment). -/
structure DocMetadata where
  sourceURL : String
  url : String
  statusCode : Int
  error : Option String
  numPages : Option Int
  title : Option String
  contentType : Option String
  proxyUsed : String
  gatekeeper : Option GatekeeperResult
deriving DecidableEq, Repr

/-- The public `Document` (part_012 lines 60-78). -/
structure Document where
  markdown : Option String
  rawHtml : Option String
  html : Option String
  links : Option (List String)
  images : Option (List String)
  metadata : DocMetadata
deriving DecidableEq, Repr

/-- The metadata literal built by `finalizeDocument` (`index.ts` lines
263-278): pdf title is attached only when truthy, `proxyUsed` defaults to
`"basic"`. -/
def engineMetadata (sourceURL : String) (r : EngineScrapeResult) : DocMetadata where
  sourceURL := sourceURL
  url := r.url
  statusCode := r.statusCode
  error := r.error
  numPages := r.pdfNumPages
  title := if jsTruthy r.pdfTitle then r.pdfTitle else Option.none
  contentType := r.contentType
  proxyUsed := r.proxyUsed.getD "basic"
  gatekeeper := Option.none

/-- The document literal built by `finalizeDocument` before the
transformers run: engine markdown and engine html (as `rawHtml`) are
copied over, everything else is absent. -/
def finalizeDocument (sourceURL : String) (r : EngineScrapeResult) : Document where
  markdown := r.markdown
  rawHtml := r.html
  html := Option.none
  links := Option.none
  images := Option.none
  metadata := engineMetadata sourceURL r

/-- The external transformer computations: `extractMetadata` (modelled
from the spec: the `lib/extractMetadata` module is not part of the
provided sources; per the spec the gatekeeper's "result is always attached
to metadata", so the extracted-metadata merge is modelled as carrying the
gatekeeper evaluation of the html), the `htmlTransform ∘ parseMarkdown`
chain, and `extractLinks` / `extractImages` (html, base URL ↦ URL list).
Each transformer catches its own errors in the source; the oracles are
total, modelling the non-throwing runs. -/
structure TransformOracles where
  gatekeeperOf : String → GatekeeperResult
  parseMarkdownOf : String → String
  extractLinksOf : String → String → List String
  extractImagesOf : String → String → List String

/-- `document.metadata = { ...document.metadata, ...metadata }` restricted
to the gatekeeper attachment. -/
def attachGatekeeper (doc : Document) (g : GatekeeperResult) : Document :=
  { doc with metadata := { doc.metadata with gatekeeper := some g } }

/-- Transformer step 1 (part_010 lines 284-291): metadata extraction,
run whenever the html is non-empty. -/
def tfMetadataStep (oracles : TransformOracles) (html : String)
    (doc : Document) : Document :=
  if html ≠ "" then attachGatekeeper doc (oracles.gatekeeperOf html) else doc

/-- Transformer step 2 (part_010 lines 293-310): Markdown conversion when
requested and `!document.markdown` (absent or empty string). -/
def tfMarkdownStep (formats : List FormatType) (oracles : TransformOracles)
    (html : String) (doc : Document) : Document :=
  if html ≠ "" ∧ hasFormatOfType formats FormatType.markdown = true then
    (if doc.markdown.getD "" = "" then
      { doc with markdown := some (oracles.parseMarkdownOf html) }
    else doc)
  else doc

/-- Transformer step 3 (part_010 lines 312-314): cleaned html output. -/
def tfHtmlStep (formats : List FormatType) (html : String)
    (doc : Document) : Document :=
  if html ≠ "" ∧ hasFormatOfType formats FormatType.html = true then
    { doc with html := some html }
  else doc

/-- Transformer step 4 (part_010 lines 316-322): link extraction. -/
def tfLinksStep (formats : List FormatType) (oracles : TransformOracles)
    (html : String) (doc : Document) : Document :=
  if html ≠ "" ∧ hasFormatOfType formats FormatType.links = true then
    { doc with links := some (oracles.extractLinksOf html doc.metadata.url) }
  else doc

/-- Transformer step 5 (part_010 lines 324-330): image extraction. -/
def tfImagesStep (formats : List FormatType) (oracles : TransformOracles)
    (html : String) (doc : Document) : Document :=
  if html ≠ "" ∧ hasFormatOfType formats FormatType.images = true then
    { doc with images := some (oracles.extractImagesOf html doc.metadata.url) }
  else doc

/-- `executeTransformers` (part_010 lines 278-333): the fixed transformer
order over `html = document.rawHtml ?? document.html ?? ""`. -/
def executeTransformers (formats : List FormatType)
    (oracles : TransformOracles) (doc : Document) : Document :=
  let html := (doc.rawHtml.orElse (fun _ => doc.html)).getD ""
  tfImagesStep formats oracles html
    (tfLinksStep formats oracles html
      (tfHtmlStep formats html
        (tfMarkdownStep formats oracles html
          (tfMetadataStep oracles html doc))))

/-- The tail of `scrapeURL` (`index.ts` lines 296-301): `rawHtml` is
deleted from a successful document when it was not requested. -/
def stripRawHtmlUnlessRequested (formats : List FormatType)
    (doc : Document) : Document :=
  if hasFormatOfType formats FormatType.rawHtml then doc
  else { doc with rawHtml := Option.none }

/-- The success path of `scrapeURL` for one fallback round: the inner
engine loop followed by finalization, the transformers, and the `rawHtml`
strip. -/
def scrapeURLModel (formats : List FormatType) (oracles : TransformOracles)
    (sourceURL : String) (attempts : List (String × AttemptOutcome)) :
    Option Document :=
  match runEngineLoop (hasFormatOfType formats FormatType.markdown)
      Option.none attempts with
  | .finalized r =>
    some (stripRawHtmlUnlessRequested formats
      (executeTransformers formats oracles (finalizeDocument sourceURL r)))
  | _ => Option.none

theorem tfMetadataStep_fields (oracles : TransformOracles) (html : String)
    (doc : Document) :
    (tfMetadataStep oracles html doc).markdown = doc.markdown
    ∧ (tfMetadataStep oracles html doc).rawHtml = doc.rawHtml
    ∧ (tfMetadataStep oracles html doc).html = doc.html
    ∧ (tfMetadataStep oracles html doc).links = doc.links
    ∧ (tfMetadataStep oracles html doc).images = doc.images := by
  rw [tfMetadataStep]
  by_cases h : html ≠ ""
  · rw [if_pos h]
    exact ⟨rfl, rfl, rfl, rfl, rfl⟩
  · rw [if_neg h]
    exact ⟨rfl, rfl, rfl, rfl, rfl⟩

theorem tfMetadataStep_gatekeeper (oracles : TransformOracles) (html : String)
    (doc : Document) (h : html ≠ "") :
    (tfMetadataStep oracles html doc).metadata.gatekeeper
      = some (oracles.gatekeeperOf html) := by
  rw [tfMetadataStep, if_pos h]
  rfl

theorem tfMarkdownStep_fields (formats : List FormatType)
    (oracles : TransformOracles) (html : String) (doc : Document) :
    (tfMarkdownStep formats oracles html doc).rawHtml = doc.rawHtml
    ∧ (tfMarkdownStep formats oracles html doc).html = doc.html
    ∧ (tfMarkdownStep formats oracles html doc).links = doc.links
    ∧ (tfMarkdownStep formats oracles html doc).images = doc.images
    ∧ (tfMarkdownStep formats oracles html doc).metadata = doc.metadata := by
  rw [tfMarkdownStep]
  by_cases h : html ≠ "" ∧ hasFormatOfType formats FormatType.markdown = true
  · rw [if_pos h]
    by_cases hm : doc.markdown.getD "" = ""
    · rw [if_pos hm]
      exact ⟨rfl, rfl, rfl, rfl, rfl⟩
    · rw [if_neg hm]
      exact ⟨rfl, rfl, rfl, rfl, rfl⟩
  · rw [if_neg h]
    exact ⟨rfl, rfl, rfl, rfl, rfl⟩

theorem tfMarkdownStep_markdown_some (formats : List FormatType)
    (oracles : TransformOracles) (html : String) (doc : Document)
    (h : html ≠ "") (hreq : hasFormatOfType formats FormatType.markdown = true) :
    (tfMarkdownStep formats oracles html doc).markdown.isSome = true := by
  rw [tfMarkdownStep, if_pos ⟨h, hreq⟩]
  by_cases hm : doc.markdown.getD "" = ""
  · rw [if_pos hm]
    rfl
  · rw [if_neg hm]
    cases hd : doc.markdown with
    | none =>
      rw [hd] at hm
      exact absurd rfl hm
    | some s =>
      rfl

theorem tfMarkdownStep_markdown_keep (formats : List FormatType)
    (oracles : TransformOracles) (html : String) (doc : Document)
    (hreq : hasFormatOfType formats FormatType.markdown = false) :
    (tfMarkdownStep formats oracles html doc).markdown = doc.markdown := by
  rw [tfMarkdownStep, if_neg]
  rintro ⟨-, habs⟩
  rw [hreq] at habs
  exact Bool.false_ne_true habs

theorem tfHtmlStep_fields (formats : List FormatType) (html : String)
    (doc : Document) :
    (tfHtmlStep formats html doc).markdown = doc.markdown
    ∧ (tfHtmlStep formats html doc).rawHtml = doc.rawHtml
    ∧ (tfHtmlStep formats html doc).links = doc.links
    ∧ (tfHtmlStep formats html doc).images = doc.images
    ∧ (tfHtmlStep formats html doc).metadata = doc.metadata := by
  rw [tfHtmlStep]
  by_cases h : html ≠ "" ∧ hasFormatOfType formats FormatType.html = true
  · rw [if_pos h]
    exact ⟨rfl, rfl, rfl, rfl, rfl⟩
  · rw [if_neg h]
    exact ⟨rfl, rfl, rfl, rfl, rfl⟩

theorem tfHtmlStep_html (formats : List FormatType) (html : String)
    (doc : Document) (h : html ≠ "") :
    (tfHtmlStep formats html doc).html =
      (if hasFormatOfType formats FormatType.html = true then some html
        else doc.html) := by
  rw [tfHtmlStep]
  by_cases hreq : hasFormatOfType formats FormatType.html = true
  · rw [if_pos ⟨h, hreq⟩, if_pos hreq]
  · rw [if_neg (fun hc => hreq hc.2), if_neg hreq]

theorem tfLinksStep_fields (formats : List FormatType)
    (oracles : TransformOracles) (html : String) (doc : Document) :
    (tfLinksStep formats oracles html doc).markdown = doc.markdown
    ∧ (tfLinksStep formats oracles html doc).rawHtml = doc.rawHtml
    ∧ (tfLinksStep formats oracles html doc).html = doc.html
    ∧ (tfLinksStep formats oracles html doc).images = doc.images
    ∧ (tfLinksStep formats oracles html doc).metadata = doc.metadata := by
  rw [tfLinksStep]
  by_cases h : html ≠ "" ∧ hasFormatOfType formats FormatType.links = true
  · rw [if_pos h]
    exact ⟨rfl, rfl, rfl, rfl, rfl⟩
  · rw [if_neg h]
    exact ⟨rfl, rfl, rfl, rfl, rfl⟩

theorem tfLinksStep_links (formats : List FormatType)
    (oracles : TransformOracles) (html : String) (doc : Document)
    (h : html ≠ "") :
    (tfLinksStep formats oracles html doc).links =
      (if hasFormatOfType formats FormatType.links = true then
        some (oracles.extractLinksOf html doc.metadata.url)
      else doc.links) := by
  rw [tfLinksStep]
  by_cases hreq : hasFormatOfType formats FormatType.links = true
  · rw [if_pos ⟨h, hreq⟩, if_pos hreq]
  · rw [if_neg (fun hc => hreq hc.2), if_neg hreq]

theorem tfImagesStep_fields (formats : List FormatType)
    (oracles : TransformOracles) (html : String) (doc : Document) :
    (tfImagesStep formats oracles html doc).markdown = doc.markdown
    ∧ (tfImagesStep formats oracles html doc).rawHtml = doc.rawHtml
    ∧ (tfImagesStep formats oracles html doc).html = doc.html
    ∧ (tfImagesStep formats oracles html doc).links = doc.links
    ∧ (tfImagesStep formats oracles html doc).metadata = doc.metadata := by
  rw [tfImagesStep]
  by_cases h : html ≠ "" ∧ hasFormatOfType formats FormatType.images = true
  · rw [if_pos h]
    exact ⟨rfl, rfl, rfl, rfl, rfl⟩
  · rw [if_neg h]
    exact ⟨rfl, rfl, rfl, rfl, rfl⟩

theorem tfImagesStep_images (formats : List FormatType)
    (oracles : TransformOracles) (html : String) (doc : Document)
    (h : html ≠ "") :
    (tfImagesStep formats oracles html doc).images =
      (if hasFormatOfType formats FormatType.images = true then
        some (oracles.extractImagesOf html doc.metadata.url)
      else doc.images) := by
  rw [tfImagesStep]
  by_cases hreq : hasFormatOfType formats FormatType.images = true
  · rw [if_pos ⟨h, hreq⟩, if_pos hreq]
  · rw [if_neg (fun hc => hreq hc.2), if_neg hreq]

theorem stripRawHtml_fields (formats : List FormatType) (doc : Document) :
    (stripRawHtmlUnlessRequested formats doc).markdown = doc.markdown
    ∧ (stripRawHtmlUnlessRequested formats doc).html = doc.html
    ∧ (stripRawHtmlUnlessRequested formats doc).links = doc.links
    ∧ (stripRawHtmlUnlessRequested formats doc).images = doc.images
    ∧ (stripRawHtmlUnlessRequested formats doc).metadata = doc.metadata := by
  rw [stripRawHtmlUnlessRequested]
  by_cases h : hasFormatOfType formats FormatType.rawHtml = true
  · rw [if_pos h]
    exact ⟨rfl, rfl, rfl, rfl, rfl⟩
  · rw [if_neg h]
    exact ⟨rfl, rfl, rfl, rfl, rfl⟩

theorem stripRawHtml_rawHtml (formats : List FormatType) (doc : Document) :
    (stripRawHtmlUnlessRequested formats doc).rawHtml =
      (if hasFormatOfType formats FormatType.rawHtml = true then doc.rawHtml
        else Option.none) := by
  rw [stripRawHtmlUnlessRequested]
  by_cases h : hasFormatOfType formats FormatType.rawHtml = true
  · rw [if_pos h, if_pos h]
  · rw [if_neg h, if_neg h]

theorem finalize_transform_html (sourceURL : String) (r : EngineScrapeResult) :
    (((finalizeDocument sourceURL r).rawHtml).orElse
        (fun _ => (finalizeDocument sourceURL r).html)).getD ""
      = r.html.getD "" := by
  show ((r.html).orElse (fun _ => Option.none)).getD "" = r.html.getD ""
  cases r.html <;> rfl

/-- A trivial gatekeeper result carried by the sample metadata oracle. -/
def gkUsableSample : GatekeeperResult where
  blockClass := BlockClass.none
  confidence := 0
  evidence := []
  quality := ⟨0, 0, 0, false, defaultThresholds⟩
  contentStatus := ContentStatus.usable

/-- Concrete transformer oracles for the counterexamples and witnesses. -/
def sampleOracles : TransformOracles where
  gatekeeperOf := fun _ => gkUsableSample
  parseMarkdownOf := fun _ => ""
  extractLinksOf := fun _ _ => []
  extractImagesOf := fun _ _ => []

/-- An engine result with no HTML at all and status 500 (accepted by the
fallback loop because the status is outside the success range). -/
def sampleResult500 : EngineScrapeResult where
  url := "https://example.com/miss"
  html := Option.none
  markdown := Option.none
  statusCode := 500
  error := Option.none
  contentType := Option.none
  pdfNumPages := Option.none
  pdfTitle := Option.none
  proxyUsed := Option.none

/-- C3 counterexample: a scrape that succeeds with empty engine HTML
(markdown requested, status 500 short-circuits the fallback) returns a
document whose metadata carries no gatekeeper result, because every
transformer — including metadata extraction — is guarded by
`if (html)`.  This refutes "for every scrape that succeeds" as stated. -/
theorem executeTransformers_gatekeeper_counterexample :
    ((scrapeURLModel [FormatType.markdown] sampleOracles
        "https://example.com/miss"
        [("fetch", AttemptOutcome.ok sampleResult500 "" "")]).map
      Document.metadata).bind DocMetadata.gatekeeper = Option.none
    ∧ (scrapeURLModel [FormatType.markdown] sampleOracles
        "https://example.com/miss"
        [("fetch", AttemptOutcome.ok sampleResult500 "" "")]).isSome = true := by
  constructor
  · rfl
  · rfl

/-- C3 (amended): for every scrape that succeeds whose accepted engine
result has non-empty HTML, the gatekeeper result carried by metadata
extraction is attached to the returned document's metadata (when the
engine HTML is empty no transformer runs, so nothing is attached). -/
theorem executeTransformers_gatekeeper_attached (formats : List FormatType)
    (oracles : TransformOracles) (sourceURL : String)
    (attempts : List (String × AttemptOutcome)) (doc : Document)
    (r : EngineScrapeResult)
    (hrun : runEngineLoop (hasFormatOfType formats FormatType.markdown)
        Option.none attempts = InnerLoopResult.finalized r)
    (hdoc : scrapeURLModel formats oracles sourceURL attempts = some doc)
    (hhtml : r.html.getD "" ≠ "") :
    doc.metadata.gatekeeper = some (oracles.gatekeeperOf (r.html.getD "")) := by
  simp only [scrapeURLModel, hrun] at hdoc
  rw [Option.some.injEq] at hdoc
  subst hdoc
  rw [(stripRawHtml_fields _ _).2.2.2.2]
  simp only [executeTransformers]
  rw [finalize_transform_html]
  rw [(tfImagesStep_fields _ _ _ _).2.2.2.2, (tfLinksStep_fields _ _ _ _).2.2.2.2,
    (tfHtmlStep_fields _ _ _).2.2.2.2, (tfMarkdownStep_fields _ _ _ _).2.2.2.2]
  exact tfMetadataStep_gatekeeper oracles _ _ hhtml

/-- A document-engine-style result: the engine itself supplies a markdown
placeholder alongside the html (as the PDF engine does). -/
def samplePdfResult : EngineScrapeResult where
  url := "https://example.com/doc.pdf"
  html := some "QkFTRTY0"
  markdown := some "QkFTRTY0"
  statusCode := 200
  error := Option.none
  contentType := some "application/pdf"
  pdfNumPages := Option.none
  pdfTitle := Option.none
  proxyUsed := Option.none

/-- C8 counterexample: with only `links` requested, a successful scrape
through an engine that supplies its own markdown (the PDF engine) returns
a document with `markdown` present even though the markdown format was not
requested — `finalizeDocument` copies the engine markdown unconditionally
and nothing strips it.  This refutes "document[F] is absent if F was not
requested" as stated. -/
theorem scrapeURL_format_fidelity_counterexample :
    ((scrapeURLModel [FormatType.links] sampleOracles
        "https://example.com/doc.pdf"
        [("pdf", AttemptOutcome.ok samplePdfResult "" "")]).map
      Document.markdown) = some (some "QkFTRTY0")
    ∧ hasFormatOfType [FormatType.links] FormatType.markdown = false := by
  constructor
  · rfl
  · rfl

/-- C8 (amended): for every scrape that succeeds whose accepted engine
result has non-empty HTML and no engine-supplied markdown, each of the
five formats is present on the returned document exactly when it was
requested. -/
theorem scrapeURL_format_fidelity (formats : List FormatType)
    (oracles : TransformOracles) (sourceURL : String)
    (attempts : List (String × AttemptOutcome)) (doc : Document)
    (r : EngineScrapeResult)
    (hrun : runEngineLoop (hasFormatOfType formats FormatType.markdown)
        Option.none attempts = InnerLoopResult.finalized r)
    (hdoc : scrapeURLModel formats oracles sourceURL attempts = some doc)
    (hhtml : r.html.getD "" ≠ "") (hmd : r.markdown = Option.none) :
    doc.markdown.isSome = hasFormatOfType formats FormatType.markdown
    ∧ doc.html.isSome = hasFormatOfType formats FormatType.html
    ∧ doc.rawHtml.isSome = hasFormatOfType formats FormatType.rawHtml
    ∧ doc.links.isSome = hasFormatOfType formats FormatType.links
    ∧ doc.images.isSome = hasFormatOfType formats FormatType.images := by
  simp only [scrapeURLModel, hrun] at hdoc
  rw [Option.some.injEq] at hdoc
  subst hdoc
  have hsome : r.html.isSome = true := by
    cases hr : r.html with
    | none =>
      rw [hr] at hhtml
      exact absurd rfl hhtml
    | some s => rfl
  refine ⟨?_, ?_, ?_, ?_, ?_⟩
  · rw [(stripRawHtml_fields _ _).1]
    simp only [executeTransformers]
    rw [finalize_transform_html]
    rw [(tfImagesStep_fields _ _ _ _).1, (tfLinksStep_fields _ _ _ _).1,
      (tfHtmlStep_fields _ _ _).1]
    by_cases hreq : hasFormatOfType formats FormatType.markdown = true
    · rw [hreq]
      exact tfMarkdownStep_markdown_some _ _ _ _ hhtml hreq
    · have hreq' : hasFormatOfType formats FormatType.markdown = false :=
        Bool.eq_false_iff.mpr hreq
      rw [hreq', tfMarkdownStep_markdown_keep _ _ _ _ hreq',
        (tfMetadataStep_fields _ _ _).1]
      show r.markdown.isSome = false
      rw [hmd]
      rfl
  · rw [(stripRawHtml_fields _ _).2.1]
    simp only [executeTransformers]
    rw [finalize_transform_html]
    rw [(tfImagesStep_fields _ _ _ _).2.2.1, (tfLinksStep_fields _ _ _ _).2.2.1,
      tfHtmlStep_html _ _ _ hhtml]
    by_cases hreq : hasFormatOfType formats FormatType.html = true
    · rw [if_pos hreq, hreq]
      rfl
    · have hreq' : hasFormatOfType formats FormatType.html = false :=
        Bool.eq_false_iff.mpr hreq
      rw [if_neg hreq, hreq', (tfMarkdownStep_fields _ _ _ _).2.1,
        (tfMetadataStep_fields _ _ _).2.2.1]
      rfl
  · rw [stripRawHtml_rawHtml]
    by_cases hreq : hasFormatOfType formats FormatType.rawHtml = true
    · rw [if_pos hreq, hreq]
      simp only [executeTransformers]
      rw [finalize_transform_html]
      rw [(tfImagesStep_fields _ _ _ _).2.1, (tfLinksStep_fields _ _ _ _).2.1,
        (tfHtmlStep_fields _ _ _).2.1, (tfMarkdownStep_fields _ _ _ _).1,
        (tfMetadataStep_fields _ _ _).2.1]
      exact hsome
    · have hreq' : hasFormatOfType formats FormatType.rawHtml = false :=
        Bool.eq_false_iff.mpr hreq
      rw [if_neg hreq, hreq']
      rfl
  · rw [(stripRawHtml_fields _ _).2.2.1]
    simp only [executeTransformers]
    rw [finalize_transform_html]
    rw [(tfImagesStep_fields _ _ _ _).2.2.2.1,
      tfLinksStep_links _ _ _ _ hhtml]
    by_cases hreq : hasFormatOfType formats FormatType.links = true
    · rw [if_pos hreq, hreq]
      rfl
    · have hreq' : hasFormatOfType formats FormatType.links = false :=
        Bool.eq_false_iff.mpr hreq
      rw [if_neg hreq, hreq', (tfHtmlStep_fields _ _ _).2.2.1,
        (tfMarkdownStep_fields _ _ _ _).2.2.1,
        (tfMetadataStep_fields _ _ _).2.2.2.1]
      rfl
  · rw [(stripRawHtml_fields _ _).2.2.2.1]
    simp only [executeTransformers]
    rw [finalize_transform_html]
    rw [tfImagesStep_images _ _ _ _ hhtml]
    by_cases hreq : hasFormatOfType formats FormatType.images = true
    · rw [if_pos hreq, hreq]
      rfl
    · have hreq' : hasFormatOfType formats FormatType.images = false :=
        Bool.eq_false_iff.mpr hreq
      rw [if_neg hreq, hreq', (tfLinksStep_fields _ _ _ _).2.2.2.1,
        (tfHtmlStep_fields _ _ _).2.2.2.1,
        (tfMarkdownStep_fields _ _ _ _).2.2.2.1,
        (tfMetadataStep_fields _ _ _).2.2.2.2]
      rfl

/-- The metadata of the document produced by scraping `sampleResultHtml`
with formats `[markdown, rawHtml]` through `sampleOracles`. -/
def sampleFidelityMetadata : DocMetadata where
  sourceURL := "https://example.com/"
  url := "https://example.com/"
  statusCode := 200
  error := Option.none
  numPages := Option.none
  title := Option.none
  contentType := Option.none
  proxyUsed := "basic"
  gatekeeper := some gkUsableSample

/-- The document produced by scraping `sampleResultHtml` with formats
`[markdown, rawHtml]` through `sampleOracles`. -/
def sampleFidelityDoc : Document where
  markdown := some ""
  rawHtml := some "<p>hi</p>"
  html := Option.none
  links := Option.none
  images := Option.none
  metadata := sampleFidelityMetadata

/-- C3 witness: a successful scrape of a page with non-empty HTML carries
the gatekeeper result on its metadata. -/
theorem executeTransformers_gatekeeper_attached_witness :
    sampleFidelityDoc.metadata.gatekeeper = some gkUsableSample :=
  executeTransformers_gatekeeper_attached
    [FormatType.markdown, FormatType.rawHtml] sampleOracles
    "https://example.com/"
    [("fetch", AttemptOutcome.ok sampleResultHtml "md" "md")]
    sampleFidelityDoc sampleResultHtml (by decide) (by decide) (by decide)

/-- C8 witness: on the same successful scrape, markdown and rawHtml (both
requested) are present and html (not requested) is absent, matching the
requested-format set. -/
theorem scrapeURL_format_fidelity_witness :
    sampleFidelityDoc.markdown.isSome = hasFormatOfType
        [FormatType.markdown, FormatType.rawHtml] FormatType.markdown
    ∧ sampleFidelityDoc.html.isSome = hasFormatOfType
        [FormatType.markdown, FormatType.rawHtml] FormatType.html
    ∧ sampleFidelityDoc.rawHtml.isSome = hasFormatOfType
        [FormatType.markdown, FormatType.rawHtml] FormatType.rawHtml := by
  have h := scrapeURL_format_fidelity
    [FormatType.markdown, FormatType.rawHtml] sampleOracles
    "https://example.com/"
    [("fetch", AttemptOutcome.ok sampleResultHtml "md" "md")]
    sampleFidelityDoc sampleResultHtml (by decide) (by decide) (by decide) rfl
  exact ⟨h.1, h.2.1, h.2.2.1⟩

end WebCrawl
